import Mathlib

/-!
# GorillaFlix — verification of the storage layer and API routes

A shallow embedding of the GorillaFlix video-sharing application:
the relational data model (`shared/schema.ts`), the data-access layer
(`DatabaseStorage` in `server/storage.ts`) and the Express route handlers
(`registerRoutes` in `server/routes.ts`).

Conventions of the embedding:
* Each SQL table is a list of records; `serial` primary keys are modelled
  with explicit `next…Id` counters in the database state (Postgres sequences
  never reuse ids).
* `integer` columns (`views`, `likes`, `dislikes`) are modelled as `Int`.
* `timestamp` columns (`createdAt`, `addedAt`) are not modelled; `ORDER BY
  … DESC` on an insertion timestamp is modelled by reversing insertion order.
* Disk-file side effects (multer uploads, `fs.unlinkSync`) are not modelled;
  the claims under verification concern only database state and responses.
-/

namespace GorillaFlix

/-! ## Data model (shared/schema.ts) -/

/-- A row of the `users` table. -/
structure User where
  id : Nat
  username : String
  password : String
  avatar : Option String
  bio : Option String
deriving Repr, DecidableEq

/-- A row of the `videos` table.  `views`, `likes` and `dislikes` are
`integer` columns, hence `Int`. -/
structure Video where
  id : Nat
  title : String
  description : Option String
  thumbnail : String
  videoUrl : String
  category : String
  userId : Nat
  views : Int
  likes : Int
  dislikes : Int
  featured : Bool
deriving Repr, DecidableEq

/-- A row of the `likes`, `dislikes` or `watchlist` join tables: a
(user, video) pair.  For `likes`/`dislikes` this pair is the primary key. -/
structure UVRow where
  userId : Nat
  videoId : Nat
deriving Repr, DecidableEq

/-- A row of the `comments` table. -/
structure Comment where
  id : Nat
  content : String
  userId : Nat
  videoId : Nat
deriving Repr, DecidableEq

/-- The whole relational store. -/
structure Db where
  users : List User
  videos : List Video
  watchlist : List UVRow
  likes : List UVRow
  dislikes : List UVRow
  comments : List Comment
  nextUserId : Nat
  nextVideoId : Nat
  nextCommentId : Nat
deriving Repr, DecidableEq

/-- An empty store; Postgres `serial` sequences start at 1. -/
def Db.empty : Db :=
  { users := [], videos := [], watchlist := [], likes := [], dislikes := []
    comments := [], nextUserId := 1, nextVideoId := 1, nextCommentId := 1 }

/-! ## Primitive statements

Each primitive below is the translation of a single SQL statement issued by
`DatabaseStorage`. -/

/-- `SELECT * FROM videos WHERE id = ?`, first row. -/
def getVideoRow (id : Nat) (db : Db) : Option Video :=
  db.videos.find? (fun v => v.id == id)

/-- `SELECT * FROM users WHERE id = ?`, first row. -/
def getUserRow (id : Nat) (db : Db) : Option User :=
  db.users.find? (fun u => u.id == id)

/-- `SELECT * FROM users WHERE username = ?`, first row. -/
def getUserByUsernameRow (name : String) (db : Db) : Option User :=
  db.users.find? (fun u => u.username == name)

/-- Row lookup in a (user, video) join table. -/
def findUV (rows : List UVRow) (u v : Nat) : Option UVRow :=
  rows.find? (fun r => r.userId == u && r.videoId == v)

/-- Removal of every row matching (user, video) in a join table
(`DELETE … WHERE user_id = ? AND video_id = ?`). -/
def eraseUV (rows : List UVRow) (u v : Nat) : List UVRow :=
  rows.filter (fun r => !(r.userId == u && r.videoId == v))

/-- `INSERT INTO likes VALUES (?, ?)`. -/
def insLike (u v : Nat) (db : Db) : Db :=
  { db with likes := db.likes ++ [⟨u, v⟩] }

/-- `UPDATE videos SET likes = likes + 1 WHERE id = ?`. -/
def bumpLikes (v : Nat) (db : Db) : Db :=
  { db with videos :=
      db.videos.map (fun w => if w.id == v then { w with likes := w.likes + 1 } else w) }

/-- `DELETE FROM likes WHERE user_id = ? AND video_id = ?`. -/
def delLike (u v : Nat) (db : Db) : Db :=
  { db with likes := eraseUV db.likes u v }

/-- `UPDATE videos SET likes = likes - 1 WHERE id = ?`. -/
def dropLikes (v : Nat) (db : Db) : Db :=
  { db with videos :=
      db.videos.map (fun w => if w.id == v then { w with likes := w.likes - 1 } else w) }

/-- `INSERT INTO dislikes VALUES (?, ?)`. -/
def insDislike (u v : Nat) (db : Db) : Db :=
  { db with dislikes := db.dislikes ++ [⟨u, v⟩] }

/-- `UPDATE videos SET dislikes = dislikes + 1 WHERE id = ?`. -/
def bumpDislikes (v : Nat) (db : Db) : Db :=
  { db with videos :=
      db.videos.map (fun w => if w.id == v then { w with dislikes := w.dislikes + 1 } else w) }

/-- `DELETE FROM dislikes WHERE user_id = ? AND video_id = ?`. -/
def delDislike (u v : Nat) (db : Db) : Db :=
  { db with dislikes := eraseUV db.dislikes u v }

/-- `UPDATE videos SET dislikes = dislikes - 1 WHERE id = ?`. -/
def dropDislikes (v : Nat) (db : Db) : Db :=
  { db with videos :=
      db.videos.map (fun w => if w.id == v then { w with dislikes := w.dislikes - 1 } else w) }

/-- `INSERT INTO watchlist (user_id, video_id) VALUES (?, ?)`. -/
def insWatch (u v : Nat) (db : Db) : Db :=
  { db with watchlist := db.watchlist ++ [⟨u, v⟩] }

/-- `DELETE FROM watchlist WHERE user_id = ? AND video_id = ?`. -/
def delWatch (u v : Nat) (db : Db) : Db :=
  { db with watchlist := eraseUV db.watchlist u v }

/-! ## Statement sequences with transactional grouping

A storage method compiles to a list of *atomic units*: a unit is one SQL
statement, or the write statements of one `db.transaction` block.  Under
standard relational transaction semantics a failure inside a unit rolls that
whole unit back, while units executed before it stay committed. -/

/-- Apply every statement of one atomic unit. -/
def applyUnit (db : Db) (unit : List (Db → Db)) : Db :=
  unit.foldl (fun d f => f d) db

/-- Outcome of running a statement sequence: the resulting store and
whether the run completed. -/
structure RunResult where
  db : Db
  ok : Bool
deriving Repr

/-- Run the units.  `failAt = some i` injects a failure into unit `i`:
units before `i` are committed, unit `i` is rolled back (transaction
atomicity), nothing after runs.  `failAt = none` runs everything. -/
def runUnits (units : List (List (Db → Db))) (db : Db) :
    Option Nat → RunResult
  | none => ⟨units.foldl applyUnit db, true⟩
  | some i =>
    if i < units.length then ⟨(units.take i).foldl applyUnit db, false⟩
    else ⟨units.foldl applyUnit db, true⟩

/-! ## DatabaseStorage (server/storage.ts) -/

-- `searchVideos` is defined later together with the `ilike` pattern
-- matcher; everything else of the storage layer follows here.

/-- `createVideo`: inserts with `views`, `likes`, `dislikes` forced to 0. -/
structure InsertVideo where
  title : String
  description : Option String
  thumbnail : String
  videoUrl : String
  category : String
  userId : Nat
  featured : Bool
deriving Repr, DecidableEq

def createVideo (ins : InsertVideo) (db : Db) : Video × Db :=
  let v : Video :=
    { id := db.nextVideoId, title := ins.title, description := ins.description
      thumbnail := ins.thumbnail, videoUrl := ins.videoUrl
      category := ins.category, userId := ins.userId
      views := 0, likes := 0, dislikes := 0, featured := ins.featured }
  (v, { db with videos := db.videos ++ [v], nextVideoId := db.nextVideoId + 1 })

/-- The fields `updateVideoSchema` admits (`title`, `description`,
`thumbnail`, `category`, `featured`); `description` is optional in the
parsed object, the rest are always present after a successful parse. -/
structure UpdateVideo where
  title : String
  description : Option String
  thumbnail : String
  category : String
  featured : Bool
deriving Repr, DecidableEq

/-- Apply an `UpdateVideo` to one row; an absent `description` key leaves
the column untouched. -/
def applyVideoUpdate (u : UpdateVideo) (w : Video) : Video :=
  { w with title := u.title, thumbnail := u.thumbnail, category := u.category
           featured := u.featured
           description := match u.description with
             | some d => some d
             | none => w.description }

/-- `updateVideo`: `UPDATE videos SET … WHERE id = ? RETURNING *`. -/
def updateVideo (id : Nat) (u : UpdateVideo) (db : Db) : Option Video × Db :=
  let vids := db.videos.map (fun w => if w.id == id then applyVideoUpdate u w else w)
  ((db.videos.find? (fun w => w.id == id)).map (applyVideoUpdate u),
   { db with videos := vids })

/-- `deleteVideo`: returns whether a row was deleted. -/
def deleteVideo (id : Nat) (db : Db) : Bool × Db :=
  (db.videos.any (fun w => w.id == id),
   { db with videos := db.videos.filter (fun w => !(w.id == id)) })

/-- `incrementViews`: `UPDATE videos SET views = views + 1 WHERE id = ?
RETURNING *`. -/
def incrementViews (id : Nat) (db : Db) : Option Video × Db :=
  ((db.videos.find? (fun w => w.id == id)).map
      (fun w => { w with views := w.views + 1 }),
   { db with videos :=
      db.videos.map (fun w => if w.id == id then { w with views := w.views + 1 } else w) })

/-- `addToWatchlist`: dedupe on the existing (user, video) key, then a
single `INSERT` — no transaction, and no statement touches the `videos`
table. -/
def addToWatchlistProg (u v : Nat) (db : Db) : List (List (Db → Db)) :=
  match findUV db.watchlist u v with
  | some _ => []
  | none => [[insWatch u v]]

/-- The row `addToWatchlist` returns: the existing row on a dedupe hit,
else the inserted one. -/
def addToWatchlistRet (u v : Nat) (db : Db) : UVRow :=
  match findUV db.watchlist u v with
  | some r => r
  | none => ⟨u, v⟩

/-- Success-path `addToWatchlist`. -/
def addToWatchlist (u v : Nat) (db : Db) : UVRow × Db :=
  (addToWatchlistRet u v db, (runUnits (addToWatchlistProg u v db) db none).db)

/-- `removeFromWatchlist`: single `DELETE … RETURNING`, result tells
whether a row was deleted. -/
def removeFromWatchlist (u v : Nat) (db : Db) : Bool × Db :=
  ((findUV db.watchlist u v).isSome, (runUnits [[delWatch u v]] db none).db)

/-- `isInWatchlist`. -/
def isInWatchlist (u v : Nat) (db : Db) : Bool :=
  (findUV db.watchlist u v).isSome

/-- `likeVideo`: dedupe select, then one transaction inserting the like
row and incrementing the video's `likes` counter. -/
def likeVideoProg (u v : Nat) (db : Db) : List (List (Db → Db)) :=
  match findUV db.likes u v with
  | some _ => []
  | none => [[insLike u v, bumpLikes v]]

/-- The `Like` row `likeVideo` returns. -/
def likeVideoRet (u v : Nat) (db : Db) : UVRow :=
  match findUV db.likes u v with
  | some r => r
  | none => ⟨u, v⟩

/-- `likeVideo` with an injected failure point (see `runUnits`). -/
def likeVideoRun (u v : Nat) (db : Db) (failAt : Option Nat) : RunResult :=
  runUnits (likeVideoProg u v db) db failAt

/-- Success-path `likeVideo`. -/
def likeVideo (u v : Nat) (db : Db) : UVRow × Db :=
  (likeVideoRet u v db, (likeVideoRun u v db none).db)

/-- `unlikeVideo`: one transaction deleting the like row and, only when a
row was actually deleted, decrementing the counter. -/
def unlikeVideoProg (u v : Nat) (db : Db) : List (List (Db → Db)) :=
  if (findUV db.likes u v).isSome then [[delLike u v, dropLikes v]]
  else [[delLike u v]]

/-- `unlikeVideo` with an injected failure point. -/
def unlikeVideoRun (u v : Nat) (db : Db) (failAt : Option Nat) : RunResult :=
  runUnits (unlikeVideoProg u v db) db failAt

/-- Success-path `unlikeVideo`; the boolean is `deleteResult.length > 0`. -/
def unlikeVideo (u v : Nat) (db : Db) : Bool × Db :=
  ((findUV db.likes u v).isSome, (unlikeVideoRun u v db none).db)

/-- `isVideoLiked`. -/
def isVideoLiked (u v : Nat) (db : Db) : Bool :=
  (findUV db.likes u v).isSome

/-- `dislikeVideo`: mirror image of `likeVideo` over the `dislikes`
table and counter. -/
def dislikeVideoProg (u v : Nat) (db : Db) : List (List (Db → Db)) :=
  match findUV db.dislikes u v with
  | some _ => []
  | none => [[insDislike u v, bumpDislikes v]]

def dislikeVideoRet (u v : Nat) (db : Db) : UVRow :=
  match findUV db.dislikes u v with
  | some r => r
  | none => ⟨u, v⟩

def dislikeVideoRun (u v : Nat) (db : Db) (failAt : Option Nat) : RunResult :=
  runUnits (dislikeVideoProg u v db) db failAt

def dislikeVideo (u v : Nat) (db : Db) : UVRow × Db :=
  (dislikeVideoRet u v db, (dislikeVideoRun u v db none).db)

/-- `undislikeVideo`: mirror image of `unlikeVideo`. -/
def undislikeVideoProg (u v : Nat) (db : Db) : List (List (Db → Db)) :=
  if (findUV db.dislikes u v).isSome then [[delDislike u v, dropDislikes v]]
  else [[delDislike u v]]

def undislikeVideoRun (u v : Nat) (db : Db) (failAt : Option Nat) : RunResult :=
  runUnits (undislikeVideoProg u v db) db failAt

def undislikeVideo (u v : Nat) (db : Db) : Bool × Db :=
  ((findUV db.dislikes u v).isSome, (undislikeVideoRun u v db none).db)

/-- `isVideoDisliked`. -/
def isVideoDisliked (u v : Nat) (db : Db) : Bool :=
  (findUV db.dislikes u v).isSome

/-- `insertUserSchema` output: `username` and `password` required,
`avatar` optional. -/
structure InsertUser where
  username : String
  password : String
  avatar : Option String
deriving Repr, DecidableEq

/-- `createUser`. -/
def createUser (ins : InsertUser) (db : Db) : User × Db :=
  let u : User := { id := db.nextUserId, username := ins.username
                    password := ins.password, avatar := ins.avatar, bio := none }
  (u, { db with users := db.users ++ [u], nextUserId := db.nextUserId + 1 })

/-- `updateUserSchema` fields (`username`, `avatar`, `bio`); an absent
key leaves the column untouched. -/
structure UpdateUser where
  username : Option String
  avatar : Option String
  bio : Option String
deriving Repr, DecidableEq

def applyUserUpdate (upd : UpdateUser) (u : User) : User :=
  { u with username := upd.username.getD u.username
           avatar := match upd.avatar with
             | some a => some a
             | none => u.avatar
           bio := match upd.bio with
             | some b => some b
             | none => u.bio }

/-- `updateUser`. -/
def updateUser (id : Nat) (upd : UpdateUser) (db : Db) : Option User × Db :=
  ((db.users.find? (fun u => u.id == id)).map (applyUserUpdate upd),
   { db with users :=
      db.users.map (fun u => if u.id == id then applyUserUpdate upd u else u) })

/-- `insertCommentSchema` output. -/
structure InsertComment where
  content : String
  userId : Nat
  videoId : Nat
deriving Repr, DecidableEq

/-- `createComment`. -/
def createComment (ins : InsertComment) (db : Db) : Comment × Db :=
  let c : Comment := { id := db.nextCommentId, content := ins.content
                       userId := ins.userId, videoId := ins.videoId }
  (c, { db with comments := db.comments ++ [c], nextCommentId := db.nextCommentId + 1 })

/-- `deleteComment`: deletes only the caller's own comment. -/
def deleteComment (id userId : Nat) (db : Db) : Bool × Db :=
  (db.comments.any (fun c => c.id == id && c.userId == userId),
   { db with comments := db.comments.filter (fun c => !(c.id == id && c.userId == userId)) })

/-- `updateComment`: updates only the caller's own comment. -/
def updateComment (id userId : Nat) (content : String) (db : Db) :
    Option Comment × Db :=
  let cs := db.comments.map
    (fun c => if c.id == id && c.userId == userId then { c with content := content } else c)
  ((db.comments.find? (fun c => c.id == id && c.userId == userId)).map
      (fun c => { c with content := content }),
   { db with comments := cs })

/-- `getVideoComments`: join with `users`, newest first. -/
def getVideoComments (videoId : Nat) (db : Db) : List (Comment × User) :=
  ((db.comments.filter (fun c => c.videoId == videoId)).reverse).filterMap
    (fun c => (getUserRow c.userId db).map (fun u => (c, u)))

/-- `getWatchlist`: join with `videos`, newest first. -/
def getWatchlist (userId : Nat) (db : Db) : List Video :=
  ((db.watchlist.filter (fun r => r.userId == userId)).reverse).filterMap
    (fun r => getVideoRow r.videoId db)

/-- `getAllVideos`. -/
def getAllVideos (db : Db) : List Video := db.videos

/-- `getVideosByCategory`. -/
def getVideosByCategory (c : String) (db : Db) : List Video :=
  db.videos.filter (fun v => v.category == c)

/-- `getFeaturedVideos`. -/
def getFeaturedVideos (db : Db) : List Video :=
  db.videos.filter (fun v => v.featured)

/-- `getPopularVideos`: `ORDER BY views DESC LIMIT ?`. -/
def getPopularVideos (limit : Nat) (db : Db) : List Video :=
  ((db.videos.mergeSort (fun a b => b.views ≤ a.views)).take limit)

/-- `getUserVideos`. -/
def getUserVideos (userId : Nat) (db : Db) : List Video :=
  db.videos.filter (fun v => v.userId == userId)

/-! ## SQL `ILIKE` and `searchVideos`

`searchVideos` issues
`title ilike '%'||q||'%' or description ilike '%'||q||'%'`.
Postgres `LIKE` patterns treat `%` as "any sequence", `_` as "any single
character" and backslash as the escape character; `ILIKE` compares
case-insensitively.  Case folding is modelled on ASCII letters. -/

/-- ASCII lower-casing, as Postgres `lower()` in the C locale. -/
def lowerChar (c : Char) : Char :=
  if 'A' ≤ c && c ≤ 'Z' then Char.ofNat (c.toNat + 32) else c

/-- Does the `ILIKE` pattern match the whole text?  `%` matches any
sequence (tried on every suffix), `_` any single character, `\` escapes
the next pattern character; comparison is case-folded.  A pattern ending
in a bare escape character is a Postgres error and cannot arise from
`'%'++q++'%'`; it is mapped to `false`.  The recursion is structural on
a fuel argument that strictly dominates the pattern length, so the
function evaluates by kernel reduction. -/
def likeMatchF : Nat → List Char → List Char → Bool
  | 0, _, _ => false
  | _ + 1, [], t => t.isEmpty
  | fuel + 1, c :: p, t =>
    if c = '%' then t.tails.any (fun s => likeMatchF fuel p s)
    else if c = '_' then
      match t with
      | [] => false
      | _ :: t' => likeMatchF fuel p t'
    else if c = '\\' then
      match p with
      | [] => false
      | e :: p' =>
        match t with
        | [] => false
        | d :: t' => (lowerChar d == lowerChar e) && likeMatchF fuel p' t'
    else
      match t with
      | [] => false
      | d :: t' => (lowerChar d == lowerChar c) && likeMatchF fuel p t'

/-- Each step consumes at least one pattern character, so this fuel
always suffices. -/
def likeMatch (p t : List Char) : Bool := likeMatchF (p.length + 1) p t

/-- `s ILIKE '%' || q || '%'`. -/
def ilikeContains (q s : String) : Bool :=
  likeMatch ('%' :: (q.toList ++ ['%'])) s.toList

/-- `searchVideos`: `NULL` descriptions fail the `ilike` test. -/
def searchVideos (q : String) (db : Db) : List Video :=
  db.videos.filter (fun v =>
    ilikeContains q v.title ||
      (match v.description with
       | some d => ilikeContains q d
       | none => false))

/-- Case-insensitive substring containment — the reading the spec's
sentence about search describes. -/
def containsCI (q s : String) : Bool :=
  (s.toList.map lowerChar).tails.any
    (fun t => (q.toList.map lowerChar).isPrefixOf t)

/-- The filter `searchVideos` would implement under the substring
reading. -/
def searchVideosSubstring (q : String) (db : Db) : List Video :=
  db.videos.filter (fun v =>
    containsCI q v.title ||
      (match v.description with
       | some d => containsCI q d
       | none => false))

/-- A query is metacharacter-free when it contains no `%`, `_` or `\`. -/
def metaFree (q : String) : Prop :=
  ∀ c ∈ q.toList, c ≠ '%' ∧ c ≠ '_' ∧ c ≠ '\\'

instance (q : String) : Decidable (metaFree q) := by
  unfold metaFree; infer_instance

/-! ## Route layer (server/routes.ts)

Each Express handler is embedded as a computation in the monad `M`: the
state carries the database and a failure schedule; each `await storage.…`
call consumes one schedule entry, and a `true` entry makes that call throw.
Every handler body is wrapped in `catch500`, the translation of its
`try { … } catch (error) { res.status(500).json({ message: … }) }`.

Numeric path/body parameters are embedded after `parseInt`: routes with an
explicit `isNaN` guard take an `Option Nat` (`none` = `NaN`, answered with
400 as in the source); for routes without such a guard the parameter is a
`Nat` (a `NaN` id, which matches no row, is not modelled). -/

/-- An HTTP response body, one constructor per JSON shape the routes
produce. -/
inductive RBody
  | msg (m : String)
  | msgErrors (m : String)
  | video (v : Video)
  | videos (l : List Video)
  | userFull (u : User)
  | userPublic (id : Nat) (username : String) (avatar : Option String) (bio : Option String)
  | uvrow (r : UVRow)
  | success
  | successTerm (m : String)
  | boolAns (field : String) (b : Bool)
  | commentList (l : List (Comment × User))
  | commentMaybe (c : Option (Comment × User))
  | commentOne (c : Comment)
deriving Repr, DecidableEq

/-- An HTTP response. -/
structure Response where
  status : Nat
  body : RBody
deriving Repr, DecidableEq

/-- `res.json(user-without-password)`. -/
def publicOf (u : User) : RBody :=
  .userPublic u.id u.username u.avatar u.bio

/-- Handler-monad state: the store plus the failure schedule for storage
calls. -/
structure HState where
  db : Db
  sched : List Bool
deriving Repr

/-- The handler monad: storage failures are `Except.error ()`. -/
def M (α : Type) : Type := HState → Except Unit α × HState

instance : Monad M where
  pure a := fun s => (Except.ok a, s)
  bind x f := fun s =>
    match x s with
    | (Except.ok a, s') => f a s'
    | (Except.error e, s') => (Except.error e, s')

/-- One `await storage.…` call: consumes a schedule entry; a `true` entry
makes the call throw before touching the store (every storage method is a
single statement or a single transaction, so a throwing call commits
nothing). -/
def callS {α : Type} (f : Db → α × Db) : M α := fun s =>
  match s.sched with
  | [] =>
    let (a, db') := f s.db
    (Except.ok a, ⟨db', []⟩)
  | b :: rest =>
    if b then (Except.error (), ⟨s.db, rest⟩)
    else
      let (a, db') := f s.db
      (Except.ok a, ⟨db', rest⟩)

/-- A read-only storage call. -/
def callR {α : Type} (f : Db → α) : M α :=
  callS (fun db => (f db, db))

/-- The `try { … } catch { res.status(500).json({ message: m }) }`
wrapper common to every handler. -/
def catch500 (m : String) (body : M Response) : M Response := fun s =>
  match body s with
  | (Except.ok r, s') => (Except.ok r, s')
  | (Except.error _, s') => (Except.ok ⟨500, .msg m⟩, s')

/-- The `requireAuth` middleware: 401 when no session user.  It performs
no storage call and cannot throw. -/
def withAuth (user : Option User) (k : User → M Response) : M Response :=
  match user with
  | none => pure ⟨401, .msg "Authentication required"⟩
  | some u => k u

/-- Upload request for `POST /api/videos` (multer fields plus body). -/
structure UploadReq where
  hasVideo : Bool
  hasThumbnail : Bool
  videoFile : String
  thumbFile : String
  title : Option String
  description : Option String
  category : Option String
  featuredStr : Option String
deriving Repr, DecidableEq

/-- Body of `PUT /api/videos/:id`. -/
structure VideoUpdateBody where
  title : Option String
  description : Option String
  thumbnail : Option String
  category : Option String
  featuredStr : Option String
deriving Repr, DecidableEq

/-- `updateVideoSchema.safeParse` on `{...req.body, featured: req.body.featured === 'true'}`:
`title`, `thumbnail` and `category` are required columns without
defaults, `description` is nullable, `featured` has a default. -/
def parseVideoUpdate (b : VideoUpdateBody) : Option UpdateVideo :=
  match b.title, b.thumbnail, b.category with
  | some t, some th, some c =>
    some { title := t, description := b.description, thumbnail := th
           category := c, featured := b.featuredStr == some "true" }
  | _, _, _ => none

/-- Body of `POST /api/users`. -/
structure NewUserBody where
  username : Option String
  password : Option String
  avatar : Option String
deriving Repr, DecidableEq

/-- `insertUserSchema.safeParse`. -/
def parseNewUser (b : NewUserBody) : Option InsertUser :=
  match b.username, b.password with
  | some u, some p => some { username := u, password := p, avatar := b.avatar }
  | _, _ => none

/-- Body of `PUT /api/users/:id` after the handler deletes `password`. -/
structure UserUpdateBody where
  username : Option String
  avatar : Option String
  bio : Option String
deriving Repr, DecidableEq

/-- The API surface registered by `registerRoutes`, one constructor per
route, carrying the session user (when the route reads it) and the parsed
request data. -/
inductive Route
  | getVideos
  | getFeatured
  | getPopular (limit : Nat)
  | getByCategory (c : String)
  | search (q : Option String)
  | getVideoById (id : Nat)
  | postVideo (user : Option User) (r : UploadReq)
  | putVideo (user : Option User) (id : Nat) (b : VideoUpdateBody)
  | deleteVideoById (user : Option User) (id : Nat)
  | moderationDelete (user : Option User) (id : Nat) (reason : Option String)
  | postUser (b : NewUserBody)
  | postAvatar (user : Option User) (id : Nat) (file : Option String)
  | getUserById (id : Nat)
  | putUser (user : Option User) (id : Nat) (b : UserUpdateBody)
  | getUserVideosById (id : Nat)
  | getWatchlistR (user : Option User)
  | getUserWatchlist (id : Nat)
  | postWatchlist (user : Option User) (videoId : Option Nat)
  | deleteWatchlist (user : Option User) (videoId : Option Nat)
  | deleteWatchlistOld (userId : Nat) (videoId : Nat)
  | watchlistCheck (user : Option User) (videoId : Option Nat)
  | watchlistCheckOld (userId : Nat) (videoId : Nat)
  | postLike (user : Option User) (videoId : Option Nat)
  | deleteLikeR (user : Option User) (videoId : Option Nat)
  | likeCheck (user : Option User) (videoId : Option Nat)
  | postDislike (user : Option User) (videoId : Option Nat)
  | deleteDislikeR (user : Option User) (videoId : Option Nat)
  | dislikeCheck (user : Option User) (videoId : Option Nat)
  | getComments (videoId : Option Nat)
  | postComment (user : Option User) (videoId : Option Nat) (content : Option String)
  | putComment (user : Option User) (id : Option Nat) (content : Option String)
  | deleteCommentR (user : Option User) (id : Option Nat)
  | authRegister (b : NewUserBody)
  | authLogin (username password : Option String)

/-- The `message` of each route's catch-all 500 response. -/
def msg500 : Route → String
  | .getVideos => "Failed to fetch videos"
  | .getFeatured => "Failed to fetch featured videos"
  | .getPopular _ => "Failed to fetch popular videos"
  | .getByCategory _ => "Failed to fetch videos by category"
  | .search _ => "Failed to search videos"
  | .getVideoById _ => "Failed to fetch video"
  | .postVideo _ _ => "Failed to upload video"
  | .putVideo _ _ _ => "Failed to update video"
  | .deleteVideoById _ _ => "Failed to delete video"
  | .moderationDelete _ _ _ => "Failed to terminate video"
  | .postUser _ => "Failed to create user"
  | .postAvatar _ _ _ => "Failed to upload avatar"
  | .getUserById _ => "Failed to fetch user"
  | .putUser _ _ _ => "Failed to update user"
  | .getUserVideosById _ => "Failed to fetch user videos"
  | .getWatchlistR _ => "Failed to fetch watchlist"
  | .getUserWatchlist _ => "Failed to fetch watchlist"
  | .postWatchlist _ _ => "Failed to add to watchlist"
  | .deleteWatchlist _ _ => "Failed to remove from watchlist"
  | .deleteWatchlistOld _ _ => "Failed to remove from watchlist"
  | .watchlistCheck _ _ => "Failed to check watchlist status"
  | .watchlistCheckOld _ _ => "Failed to check watchlist status"
  | .postLike _ _ => "Failed to like video"
  | .deleteLikeR _ _ => "Failed to unlike video"
  | .likeCheck _ _ => "Failed to check like status"
  | .postDislike _ _ => "Failed to dislike video"
  | .deleteDislikeR _ _ => "Failed to undislike video"
  | .dislikeCheck _ _ => "Failed to check dislike status"
  | .getComments _ => "Failed to fetch comments"
  | .postComment _ _ _ => "Failed to create comment"
  | .putComment _ _ _ => "Failed to update comment"
  | .deleteCommentR _ _ => "Failed to delete comment"
  | .authRegister _ => "Failed to register"
  | .authLogin _ _ => "Failed to login"

/-- The body of each handler (the code inside its `try`), one case per
route in source order.  `requireAuth` runs before the `try` in the source;
it performs no storage call and cannot throw, so folding it into the body
is observationally equal.  Disk-file side effects are not modelled.

The two `auth…` cases are *modelled from the spec*: the auth module
(`setupAuth` in `server/auth.ts`) is not part of the sources, and the spec
describes only "session-based authentication" with "generic
try/catch-and-500 error responses"; they are embedded as minimal
handlers of that shape. -/
def routeBody : Route → M Response
  | .getVideos => do
    let vs ← callR getAllVideos
    pure ⟨200, .videos vs⟩
  | .getFeatured => do
    let vs ← callR getFeaturedVideos
    pure ⟨200, .videos vs⟩
  | .getPopular limit => do
    let vs ← callR (getPopularVideos limit)
    pure ⟨200, .videos vs⟩
  | .getByCategory c => do
    let vs ← callR (getVideosByCategory c)
    pure ⟨200, .videos vs⟩
  | .search q =>
    -- `if (!query)`: missing or empty string
    if q.getD "" == "" then pure ⟨400, .msg "Search query is required"⟩
    else do
      let vs ← callR (searchVideos (q.getD ""))
      pure ⟨200, .videos vs⟩
  | .getVideoById id => do
    let v? ← callR (getVideoRow id)
    match v? with
    | none => pure ⟨404, .msg "Video not found"⟩
    | some v => do
      let _ ← callS (incrementViews id)
      -- the body is the video as read *before* the increment
      pure ⟨200, .video v⟩
  | .postVideo user r =>
    withAuth user fun u =>
      if !(r.hasVideo && r.hasThumbnail) then
        pure ⟨400, .msg "Both video and thumbnail are required"⟩
      else
        match r.title, r.category with
        | some t, some c => do
          let nv ← callS (createVideo
            { title := t, description := r.description
              thumbnail := "/uploads/" ++ r.thumbFile
              videoUrl := "/uploads/" ++ r.videoFile
              category := c, userId := u.id
              featured := r.featuredStr == some "true" })
          pure ⟨201, .video nv⟩
        | _, _ => pure ⟨400, .msgErrors "Invalid video data"⟩
  | .putVideo _user id b => do
    -- no requireAuth and no ownership check on this route
    let v? ← callR (getVideoRow id)
    match v? with
    | none => pure ⟨404, .msg "Video not found"⟩
    | some _ =>
      match parseVideoUpdate b with
      | none => pure ⟨400, .msgErrors "Invalid update data"⟩
      | some upd => do
        let uv ← callS (updateVideo id upd)
        match uv with
        | some w => pure ⟨200, .video w⟩
        | none => pure ⟨200, .msg ""⟩  -- res.json(undefined); unreachable sequentially
  | .deleteVideoById user id =>
    withAuth user fun u => do
      let v? ← callR (getVideoRow id)
      match v? with
      | none => pure ⟨404, .msg "Video not found"⟩
      | some video =>
        -- admin (user ID 1) may delete any video, others only their own
        if !(u.id == 1) && !(video.userId == u.id) then
          pure ⟨403, .msg "You can only delete your own videos"⟩
        else do
          let _ ← callS (deleteVideo id)
          pure ⟨200, .success⟩
  | .moderationDelete user id reason =>
    withAuth user fun u =>
      if !(u.id == 1) then
        pure ⟨403, .msg "Only administrators can terminate videos"⟩
      else do
        let v? ← callR (getVideoRow id)
        match v? with
        | none => pure ⟨404, .msg "Video not found"⟩
        | some _ => do
          let _ ← callS (deleteVideo id)
          pure ⟨200, .successTerm
            ("Video " ++ toString id ++ " terminated by admin for: "
              ++ reason.getD "Violation of community guidelines")⟩
  | .postUser b =>
    match parseNewUser b with
    | none => pure ⟨400, .msgErrors "Invalid user data"⟩
    | some ins => do
      let existing ← callR (getUserByUsernameRow ins.username)
      match existing with
      | some _ => pure ⟨409, .msg "Username already exists"⟩
      | none => do
        let nu ← callS (createUser ins)
        pure ⟨201, .userFull nu⟩
  | .postAvatar user id file =>
    withAuth user fun u =>
      if !(u.id == id) then
        pure ⟨403, .msg "You can only update your own profile"⟩
      else do
        let usr? ← callR (getUserRow id)
        match usr? with
        | none => pure ⟨404, .msg "User not found"⟩
        | some usr =>
          match file with
          | none => pure ⟨400, .msg "No file uploaded"⟩
          | some f => do
            let uu ← callS (updateUser id
              { username := some usr.username
                avatar := some ("/uploads/" ++ f), bio := none })
            match uu with
            | none => pure ⟨500, .msg "Failed to update avatar"⟩
            | some w => pure ⟨200, publicOf w⟩
  | .getUserById id => do
    let usr? ← callR (getUserRow id)
    match usr? with
    | none => pure ⟨404, .msg "User not found"⟩
    | some u => pure ⟨200, publicOf u⟩
  | .putUser user id b =>
    withAuth user fun u =>
      if !(u.id == id) then
        pure ⟨403, .msg "You can only update your own profile"⟩
      else do
        let usr? ← callR (getUserRow id)
        match usr? with
        | none => pure ⟨404, .msg "User not found"⟩
        | some _ => do
          -- `password` is deleted from the body before the update
          let uu ← callS (updateUser id
            { username := b.username, avatar := b.avatar, bio := b.bio })
          match uu with
          | none => pure ⟨404, .msg "Failed to update user"⟩
          | some w => pure ⟨200, publicOf w⟩
  | .getUserVideosById id => do
    let usr? ← callR (getUserRow id)
    match usr? with
    | none => pure ⟨404, .msg "User not found"⟩
    | some _ => do
      let vs ← callR (getUserVideos id)
      pure ⟨200, .videos vs⟩
  | .getWatchlistR user =>
    withAuth user fun u => do
      let wl ← callR (getWatchlist u.id)
      pure ⟨200, .videos wl⟩
  | .getUserWatchlist id => do
    let wl ← callR (getWatchlist id)
    pure ⟨200, .videos wl⟩
  | .postWatchlist user videoId =>
    withAuth user fun u =>
      match videoId with
      | none => pure ⟨400, .msg "Invalid video ID"⟩
      | some v => do
        let vid? ← callR (getVideoRow v)
        match vid? with
        | none => pure ⟨404, .msg "Video not found"⟩
        | some _ => do
          let item ← callS (addToWatchlist u.id v)
          pure ⟨201, .uvrow item⟩
  | .deleteWatchlist user videoId =>
    withAuth user fun u =>
      match videoId with
      | none => pure ⟨400, .msg "Invalid video ID"⟩
      | some v => do
        let ok ← callS (removeFromWatchlist u.id v)
        if ok then pure ⟨200, .success⟩
        else pure ⟨404, .msg "Watchlist item not found"⟩
  | .deleteWatchlistOld userId videoId => do
    let ok ← callS (removeFromWatchlist userId videoId)
    if ok then pure ⟨200, .success⟩
    else pure ⟨404, .msg "Watchlist item not found"⟩
  | .watchlistCheck user videoId =>
    withAuth user fun u =>
      match videoId with
      | none => pure ⟨400, .msg "Invalid video ID"⟩
      | some v => do
        let b ← callR (isInWatchlist u.id v)
        pure ⟨200, .boolAns "isInWatchlist" b⟩
  | .watchlistCheckOld userId videoId => do
    let b ← callR (isInWatchlist userId videoId)
    pure ⟨200, .boolAns "isInWatchlist" b⟩
  | .postLike user videoId =>
    withAuth user fun u =>
      match videoId with
      | none => pure ⟨400, .msg "Invalid video ID"⟩
      | some v => do
        let vid? ← callR (getVideoRow v)
        match vid? with
        | none => pure ⟨404, .msg "Video not found"⟩
        | some _ => do
          let lk ← callS (likeVideo u.id v)
          pure ⟨201, .uvrow lk⟩
  | .deleteLikeR user videoId =>
    withAuth user fun u =>
      match videoId with
      | none => pure ⟨400, .msg "Invalid video ID"⟩
      | some v => do
        let ok ← callS (unlikeVideo u.id v)
        if ok then pure ⟨200, .success⟩
        else pure ⟨404, .msg "Like not found"⟩
  | .likeCheck user videoId =>
    withAuth user fun u =>
      match videoId with
      | none => pure ⟨400, .msg "Invalid video ID"⟩
      | some v => do
        let b ← callR (isVideoLiked u.id v)
        pure ⟨200, .boolAns "isLiked" b⟩
  | .postDislike user videoId =>
    withAuth user fun u =>
      match videoId with
      | none => pure ⟨400, .msg "Invalid video ID"⟩
      | some v => do
        let vid? ← callR (getVideoRow v)
        match vid? with
        | none => pure ⟨404, .msg "Video not found"⟩
        | some _ => do
          let dk ← callS (dislikeVideo u.id v)
          pure ⟨201, .uvrow dk⟩
  | .deleteDislikeR user videoId =>
    withAuth user fun u =>
      match videoId with
      | none => pure ⟨400, .msg "Invalid video ID"⟩
      | some v => do
        let ok ← callS (undislikeVideo u.id v)
        if ok then pure ⟨200, .success⟩
        else pure ⟨404, .msg "Dislike not found"⟩
  | .dislikeCheck user videoId =>
    withAuth user fun u =>
      match videoId with
      | none => pure ⟨400, .msg "Invalid video ID"⟩
      | some v => do
        let b ← callR (isVideoDisliked u.id v)
        pure ⟨200, .boolAns "isDisliked" b⟩
  | .getComments videoId =>
    match videoId with
    | none => pure ⟨400, .msg "Invalid video ID"⟩
    | some v => do
      let vid? ← callR (getVideoRow v)
      match vid? with
      | none => pure ⟨404, .msg "Video not found"⟩
      | some _ => do
        let cs ← callR (getVideoComments v)
        pure ⟨200, .commentList cs⟩
  | .postComment user videoId content =>
    withAuth user fun u =>
      match videoId with
      | none => pure ⟨400, .msg "Invalid video ID"⟩
      | some v => do
        let vid? ← callR (getVideoRow v)
        match vid? with
        | none => pure ⟨404, .msg "Video not found"⟩
        | some _ =>
          match content with
          | none => pure ⟨400, .msgErrors "Invalid comment data"⟩
          | some ct => do
            let nc ← callS (createComment { content := ct, userId := u.id, videoId := v })
            let cs ← callR (getVideoComments v)
            pure ⟨201, .commentMaybe (cs.find? (fun cw => cw.1.id == nc.id))⟩
  | .putComment user id content =>
    withAuth user fun u =>
      match id with
      | none => pure ⟨400, .msg "Invalid comment ID"⟩
      | some cid =>
        match content with
        | none => pure ⟨400, .msgErrors "Invalid comment data"⟩
        | some ct => do
          let uc ← callS (updateComment cid u.id ct)
          match uc with
          | none => pure ⟨404, .msg "Comment not found or you do not have permission to edit it"⟩
          | some c => pure ⟨200, .commentOne c⟩
  | .deleteCommentR user id =>
    withAuth user fun u =>
      match id with
      | none => pure ⟨400, .msg "Invalid comment ID"⟩
      | some cid => do
        let ok ← callS (deleteComment cid u.id)
        if ok then pure ⟨200, .success⟩
        else pure ⟨404, .msg "Comment not found or you do not have permission to delete it"⟩
  | .authRegister b =>
    -- Modelled from the spec: registration creates the user.
    match parseNewUser b with
    | none => pure ⟨400, .msgErrors "Invalid user data"⟩
    | some ins => do
      let nu ← callS (createUser ins)
      pure ⟨201, .userFull nu⟩
  | .authLogin username password => do
    -- Modelled from the spec: session login by username and password.
    let u? ← callR (getUserByUsernameRow (username.getD ""))
    match u? with
    | some u =>
      if password == some u.password then pure ⟨200, .userFull u⟩
      else pure ⟨401, .msg "Invalid credentials"⟩
    | none => pure ⟨401, .msg "Invalid credentials"⟩

/-- A full route handler: the body inside its try/catch-and-500. -/
def handleRoute (r : Route) : M Response :=
  catch500 (msg500 r) (routeBody r)

/-- Run a route against a store and a failure schedule, yielding the
response and the resulting store.  The error branch is unreachable
(`catch500` always returns `Except.ok`). -/
def runRoute (r : Route) (db : Db) (sched : List Bool) : Response × Db :=
  match handleRoute r ⟨db, sched⟩ with
  | (Except.ok resp, s') => (resp, s'.db)
  | (Except.error _, s') => (⟨500, .msg (msg500 r)⟩, s'.db)

end GorillaFlix

namespace GorillaFlix

/-! ## Basic lemmas about the primitives -/

/-- `find?` over a map that rewrites only the row with the matched id,
id-preservingly. -/
theorem find?_adjust (l : List Video) (v : Nat) (g : Video → Video)
    (hg : ∀ w, (g w).id = w.id) :
    (l.map (fun w => if w.id == v then g w else w)).find? (fun w => w.id == v)
      = (l.find? (fun w => w.id == v)).map g := by
  induction l with
  | nil => rfl
  | cons a l ih =>
    by_cases h : a.id = v
    · have hga : ((g a).id == v) = true := by simp [hg, h]
      have ha : (a.id == v) = true := by simp [h]
      simp only [List.map_cons, ha, if_true]
      rw [List.find?_cons_of_pos (p := fun (w : Video) => w.id == v) _ hga,
        List.find?_cons_of_pos (p := fun (w : Video) => w.id == v) _ ha]
      rfl
    · have ha : (a.id == v) = false := by simp [h]
      simp only [List.map_cons, ha, if_false, Bool.false_eq_true]
      rw [List.find?_cons_of_neg (p := fun (w : Video) => w.id == v) _ (by simp [ha]),
        List.find?_cons_of_neg (p := fun (w : Video) => w.id == v) _ (by simp [ha])]
      exact ih

theorem eraseUV_of_find?_none (rows : List UVRow) (u v : Nat)
    (h : findUV rows u v = none) : eraseUV rows u v = rows := by
  unfold findUV at h
  unfold eraseUV
  rw [List.filter_eq_self]
  intro a ha
  have hp := List.find?_eq_none.mp h a ha
  simp only [Bool.not_eq_true] at hp
  simp [hp]

end GorillaFlix

namespace GorillaFlix

/-! ## Claim C1 — like/dislike counter maintenance is transactional -/

theorem getVideoRow_insLike (x u v : Nat) (db : Db) :
    getVideoRow x (insLike u v db) = getVideoRow x db := rfl

theorem getVideoRow_delLike (x u v : Nat) (db : Db) :
    getVideoRow x (delLike u v db) = getVideoRow x db := rfl

theorem getVideoRow_insDislike (x u v : Nat) (db : Db) :
    getVideoRow x (insDislike u v db) = getVideoRow x db := rfl

theorem getVideoRow_delDislike (x u v : Nat) (db : Db) :
    getVideoRow x (delDislike u v db) = getVideoRow x db := rfl

theorem getVideoRow_bumpLikes (v : Nat) (db : Db) :
    getVideoRow v (bumpLikes v db)
      = (getVideoRow v db).map (fun w => { w with likes := w.likes + 1 }) :=
  find?_adjust db.videos v (fun w => { w with likes := w.likes + 1 }) (fun _ => rfl)

theorem getVideoRow_dropLikes (v : Nat) (db : Db) :
    getVideoRow v (dropLikes v db)
      = (getVideoRow v db).map (fun w => { w with likes := w.likes - 1 }) :=
  find?_adjust db.videos v (fun w => { w with likes := w.likes - 1 }) (fun _ => rfl)

theorem getVideoRow_bumpDislikes (v : Nat) (db : Db) :
    getVideoRow v (bumpDislikes v db)
      = (getVideoRow v db).map (fun w => { w with dislikes := w.dislikes + 1 }) :=
  find?_adjust db.videos v (fun w => { w with dislikes := w.dislikes + 1 }) (fun _ => rfl)

theorem getVideoRow_dropDislikes (v : Nat) (db : Db) :
    getVideoRow v (dropDislikes v db)
      = (getVideoRow v db).map (fun w => { w with dislikes := w.dislikes - 1 }) :=
  find?_adjust db.videos v (fun w => { w with dislikes := w.dislikes - 1 }) (fun _ => rfl)

/-- C1: for a user and video with no existing like row, `likeVideo`
inserts the like row and increments the video's `likes` counter by one in
a single transaction, so a run that fails (at any injected failure point)
leaves the store unchanged; `unlikeVideo` symmetrically deletes the row
and decrements the counter in one transaction, decrementing only when a
row was actually deleted.  `dislikeVideo`/`undislikeVideo` behave the same
over the `dislikes` table and counter. -/
theorem like_dislike_counter_transactional
    (u v : Nat) (db : Db) (vid : Video) (k : Nat)
    (hv : getVideoRow v db = some vid) :
    (findUV db.likes u v = none →
       (likeVideoRun u v db none).ok = true ∧
       (likeVideoRun u v db none).db.likes = db.likes ++ [⟨u, v⟩] ∧
       getVideoRow v (likeVideoRun u v db none).db
          = some { vid with likes := vid.likes + 1 }) ∧
    ((likeVideoRun u v db (some k)).ok = false →
       (likeVideoRun u v db (some k)).db = db) ∧
    (findUV db.likes u v ≠ none →
       (unlikeVideo u v db).1 = true ∧
       (unlikeVideo u v db).2.likes = eraseUV db.likes u v ∧
       getVideoRow v (unlikeVideo u v db).2
          = some { vid with likes := vid.likes - 1 }) ∧
    (findUV db.likes u v = none →
       (unlikeVideo u v db).1 = false ∧ (unlikeVideo u v db).2 = db) ∧
    ((unlikeVideoRun u v db (some k)).ok = false →
       (unlikeVideoRun u v db (some k)).db = db) ∧
    (findUV db.dislikes u v = none →
       (dislikeVideoRun u v db none).ok = true ∧
       (dislikeVideoRun u v db none).db.dislikes = db.dislikes ++ [⟨u, v⟩] ∧
       getVideoRow v (dislikeVideoRun u v db none).db
          = some { vid with dislikes := vid.dislikes + 1 }) ∧
    ((dislikeVideoRun u v db (some k)).ok = false →
       (dislikeVideoRun u v db (some k)).db = db) ∧
    (findUV db.dislikes u v ≠ none →
       (undislikeVideo u v db).1 = true ∧
       (undislikeVideo u v db).2.dislikes = eraseUV db.dislikes u v ∧
       getVideoRow v (undislikeVideo u v db).2
          = some { vid with dislikes := vid.dislikes - 1 }) ∧
    (findUV db.dislikes u v = none →
       (undislikeVideo u v db).1 = false ∧ (undislikeVideo u v db).2 = db) ∧
    ((undislikeVideoRun u v db (some k)).ok = false →
       (undislikeVideoRun u v db (some k)).db = db) := by
  refine ⟨?_, ?_, ?_, ?_, ?_, ?_, ?_, ?_, ?_, ?_⟩
  · intro h
    refine ⟨?_, ?_, ?_⟩
    · simp [likeVideoRun, likeVideoProg, runUnits, h]
    · simp [likeVideoRun, likeVideoProg, runUnits, h, applyUnit, bumpLikes, insLike]
    · have hrun : (likeVideoRun u v db none).db = bumpLikes v (insLike u v db) := by
        simp [likeVideoRun, likeVideoProg, runUnits, h, applyUnit]
      rw [hrun, getVideoRow_bumpLikes, getVideoRow_insLike, hv]
      rfl
  · intro hfail
    cases hE : findUV db.likes u v with
    | some r => simp [likeVideoRun, likeVideoProg, runUnits, hE] at hfail
    | none =>
      by_cases hk : k < 1
      · have hk0 : k = 0 := Nat.lt_one_iff.mp hk
        subst hk0
        simp [likeVideoRun, likeVideoProg, runUnits, hE]
      · simp [likeVideoRun, likeVideoProg, runUnits, hE, hk] at hfail
  · intro h
    have hs : (findUV db.likes u v).isSome = true := by
      cases hE : findUV db.likes u v with
      | some r => rfl
      | none => exact absurd hE h
    refine ⟨by simp [unlikeVideo, hs], ?_, ?_⟩
    · simp [unlikeVideo, unlikeVideoRun, unlikeVideoProg, runUnits, hs, applyUnit,
        dropLikes, delLike]
    · have hrun : (unlikeVideo u v db).2 = dropLikes v (delLike u v db) := by
        simp [unlikeVideo, unlikeVideoRun, unlikeVideoProg, runUnits, hs, applyUnit]
      rw [hrun, getVideoRow_dropLikes, getVideoRow_delLike, hv]
      rfl
  · intro h
    have hs : (findUV db.likes u v).isSome = false := by rw [h]; rfl
    refine ⟨by simp [unlikeVideo, hs], ?_⟩
    have hrun : (unlikeVideo u v db).2 = delLike u v db := by
      simp [unlikeVideo, unlikeVideoRun, unlikeVideoProg, runUnits, hs, applyUnit]
    rw [hrun]
    show delLike u v db = db
    unfold delLike
    rw [eraseUV_of_find?_none _ _ _ h]
  · intro hfail
    by_cases hk : k < 1
    · have hk0 : k = 0 := Nat.lt_one_iff.mp hk
      subst hk0
      cases hs : (findUV db.likes u v).isSome <;>
        simp [unlikeVideoRun, unlikeVideoProg, runUnits, hs]
    · cases hs : (findUV db.likes u v).isSome <;>
        simp [unlikeVideoRun, unlikeVideoProg, runUnits, hs, hk] at hfail
  · intro h
    refine ⟨?_, ?_, ?_⟩
    · simp [dislikeVideoRun, dislikeVideoProg, runUnits, h]
    · simp [dislikeVideoRun, dislikeVideoProg, runUnits, h, applyUnit, bumpDislikes,
        insDislike]
    · have hrun : (dislikeVideoRun u v db none).db = bumpDislikes v (insDislike u v db) := by
        simp [dislikeVideoRun, dislikeVideoProg, runUnits, h, applyUnit]
      rw [hrun, getVideoRow_bumpDislikes, getVideoRow_insDislike, hv]
      rfl
  · intro hfail
    cases hE : findUV db.dislikes u v with
    | some r => simp [dislikeVideoRun, dislikeVideoProg, runUnits, hE] at hfail
    | none =>
      by_cases hk : k < 1
      · have hk0 : k = 0 := Nat.lt_one_iff.mp hk
        subst hk0
        simp [dislikeVideoRun, dislikeVideoProg, runUnits, hE]
      · simp [dislikeVideoRun, dislikeVideoProg, runUnits, hE, hk] at hfail
  · intro h
    have hs : (findUV db.dislikes u v).isSome = true := by
      cases hE : findUV db.dislikes u v with
      | some r => rfl
      | none => exact absurd hE h
    refine ⟨by simp [undislikeVideo, hs], ?_, ?_⟩
    · simp [undislikeVideo, undislikeVideoRun, undislikeVideoProg, runUnits, hs,
        applyUnit, dropDislikes, delDislike]
    · have hrun : (undislikeVideo u v db).2 = dropDislikes v (delDislike u v db) := by
        simp [undislikeVideo, undislikeVideoRun, undislikeVideoProg, runUnits, hs,
          applyUnit]
      rw [hrun, getVideoRow_dropDislikes, getVideoRow_delDislike, hv]
      rfl
  · intro h
    have hs : (findUV db.dislikes u v).isSome = false := by rw [h]; rfl
    refine ⟨by simp [undislikeVideo, hs], ?_⟩
    have hrun : (undislikeVideo u v db).2 = delDislike u v db := by
      simp [undislikeVideo, undislikeVideoRun, undislikeVideoProg, runUnits, hs, applyUnit]
    rw [hrun]
    show delDislike u v db = db
    unfold delDislike
    rw [eraseUV_of_find?_none _ _ _ h]
  · intro hfail
    by_cases hk : k < 1
    · have hk0 : k = 0 := Nat.lt_one_iff.mp hk
      subst hk0
      cases hs : (findUV db.dislikes u v).isSome <;>
        simp [undislikeVideoRun, undislikeVideoProg, runUnits, hs]
    · cases hs : (findUV db.dislikes u v).isSome <;>
        simp [undislikeVideoRun, undislikeVideoProg, runUnits, hs, hk] at hfail

/-- A one-video store used by the concrete witnesses. -/
def vidW : Video :=
  { id := 1, title := "First", description := none, thumbnail := "/uploads/t.png"
    videoUrl := "/uploads/v.mp4", category := "Action", userId := 1
    views := 0, likes := 0, dislikes := 0, featured := false }

def dbW : Db :=
  { users := [], videos := [vidW], watchlist := [], likes := [], dislikes := []
    comments := [], nextUserId := 1, nextVideoId := 2, nextCommentId := 1 }

/-- Witness for C1 at user 2, video 1, failure point 0. -/
theorem like_dislike_counter_transactional_witness :
    getVideoRow 1 dbW = some vidW ∧
    (likeVideoRun 2 1 dbW none).db.likes = dbW.likes ++ [⟨2, 1⟩] ∧
    (likeVideoRun 2 1 dbW (some 0)).db = dbW :=
  ⟨by decide,
   ((like_dislike_counter_transactional 2 1 dbW vidW 0 (by decide)).1
      (by decide)).2.1,
   (like_dislike_counter_transactional 2 1 dbW vidW 0 (by decide)).2.1
      (by decide)⟩

end GorillaFlix

namespace GorillaFlix

/-! ## Claim C2 — denormalized counters versus join-table rows -/

/-- Number of rows of a join table referring to video `v`. -/
def countRows (rows : List UVRow) (v : Nat) : Nat :=
  rows.countP (fun r => r.videoId == v)

/-- Number of rows for a given (user, video) pair. -/
def countUV (rows : List UVRow) (u v : Nat) : Nat :=
  rows.countP (fun r => r.userId == u && r.videoId == v)

theorem countRows_append (rows rows' : List UVRow) (x : Nat) :
    countRows (rows ++ rows') x = countRows rows x + countRows rows' x := by
  simp [countRows, List.countP_append]

theorem countUV_zero_of_find?_none {rows : List UVRow} {u v : Nat}
    (h : findUV rows u v = none) : countUV rows u v = 0 := by
  unfold findUV at h
  unfold countUV
  rw [List.countP_eq_zero]
  exact fun a ha => List.find?_eq_none.mp h a ha

theorem countUV_pos_of_find?_some {rows : List UVRow} {u v : Nat} {r : UVRow}
    (h : findUV rows u v = some r) : 1 ≤ countUV rows u v := by
  unfold findUV at h
  have hmem := List.mem_of_find?_eq_some h
  have hpred := List.find?_some h
  unfold countUV
  exact List.countP_pos_iff.mpr ⟨r, hmem, hpred⟩

theorem countRows_eraseUV_self (rows : List UVRow) (u v : Nat) :
    countRows (eraseUV rows u v) v + countUV rows u v = countRows rows v := by
  unfold countRows countUV eraseUV
  rw [List.countP_filter]
  induction rows with
  | nil => rfl
  | cons a l ih =>
    rw [List.countP_cons, List.countP_cons, List.countP_cons]
    by_cases hu : (a.userId == u) = true <;> by_cases hv : (a.videoId == v) = true <;>
      simp only [hu, hv, Bool.and_true, Bool.true_and, Bool.and_false, Bool.false_and,
        Bool.not_true, Bool.not_false, Bool.and_self, Bool.not_eq_true,
        Bool.false_eq_true, if_true, if_false,
        Bool.eq_false_iff, ne_eq, not_true_eq_false, not_false_eq_true] <;>
      omega

theorem countRows_eraseUV_other (rows : List UVRow) (u v x : Nat) (hx : x ≠ v) :
    countRows (eraseUV rows u v) x = countRows rows x := by
  unfold countRows eraseUV
  rw [List.countP_filter]
  refine List.countP_congr ?_
  intro a _
  constructor
  · intro hp
    simp only [Bool.and_eq_true] at hp
    exact hp.1
  · intro hp
    have hav : a.videoId = x := by simpa using hp
    have : (a.videoId == v) = false := by simp [hav, hx]
    simp [hp, this]

theorem countUV_eraseUV_le (rows : List UVRow) (u v u' v' : Nat) :
    countUV (eraseUV rows u v) u' v' ≤ countUV rows u' v' :=
  List.Sublist.countP_le _ (List.filter_sublist _)

theorem countRows_zero_of_lt {rows : List UVRow} {n : Nat}
    (h : ∀ r ∈ rows, r.videoId < n) : countRows rows n = 0 := by
  unfold countRows
  rw [List.countP_eq_zero]
  intro a ha
  have := Nat.ne_of_lt (h a ha)
  simpa using this

/-- The inductive invariant tying the store together: video ids and join
rows stay below the id sequence, the (user, video) primary keys of
`likes`/`dislikes` hold at most one row, and every video's denormalized
counters equal its row counts. -/
def Inv (db : Db) : Prop :=
  (∀ w ∈ db.videos, w.id < db.nextVideoId) ∧
  (∀ r ∈ db.likes, r.videoId < db.nextVideoId) ∧
  (∀ r ∈ db.dislikes, r.videoId < db.nextVideoId) ∧
  (∀ u v, countUV db.likes u v ≤ 1) ∧
  (∀ u v, countUV db.dislikes u v ≤ 1) ∧
  (∀ w ∈ db.videos,
     w.likes = (countRows db.likes w.id : Int) ∧
     w.dislikes = (countRows db.dislikes w.id : Int))

theorem inv_empty : Inv Db.empty := by
  refine ⟨?_, ?_, ?_, ?_, ?_, ?_⟩ <;>
    simp [Db.empty, countUV, countRows]

end GorillaFlix

namespace GorillaFlix

/-! ### Preservation of `Inv` by each storage operation -/

theorem inv_createUser (ins : InsertUser) {db : Db} (h : Inv db) :
    Inv (createUser ins db).2 := h

theorem inv_updateUser (id : Nat) (upd : UpdateUser) {db : Db} (h : Inv db) :
    Inv (updateUser id upd db).2 := h

theorem inv_createComment (ins : InsertComment) {db : Db} (h : Inv db) :
    Inv (createComment ins db).2 := h

theorem inv_deleteComment (id userId : Nat) {db : Db} (h : Inv db) :
    Inv (deleteComment id userId db).2 := h

theorem inv_updateComment (id userId : Nat) (content : String) {db : Db} (h : Inv db) :
    Inv (updateComment id userId content db).2 := h

theorem inv_addToWatchlist (u v : Nat) {db : Db} (h : Inv db) :
    Inv (addToWatchlist u v db).2 := by
  cases hE : findUV db.watchlist u v with
  | some r =>
    have hdb : (addToWatchlist u v db).2 = db := by
      simp [addToWatchlist, addToWatchlistProg, runUnits, hE, applyUnit]
    rw [hdb]; exact h
  | none =>
    have hdb : (addToWatchlist u v db).2 = insWatch u v db := by
      simp [addToWatchlist, addToWatchlistProg, runUnits, hE, applyUnit]
    rw [hdb]; exact h

theorem inv_removeFromWatchlist (u v : Nat) {db : Db} (h : Inv db) :
    Inv (removeFromWatchlist u v db).2 := by
  have hdb : (removeFromWatchlist u v db).2 = delWatch u v db := by
    simp [removeFromWatchlist, runUnits, applyUnit]
  rw [hdb]; exact h

/-- A map over the videos table that preserves `id`, `likes` and
`dislikes` preserves the invariant. -/
theorem inv_videos_map {db : Db} (f : Video → Video)
    (hid : ∀ w, (f w).id = w.id) (hlk : ∀ w, (f w).likes = w.likes)
    (hdk : ∀ w, (f w).dislikes = w.dislikes) (h : Inv db) :
    Inv { db with videos := db.videos.map f } := by
  obtain ⟨h1, h2, h3, h4, h5, h6⟩ := h
  refine ⟨?_, h2, h3, h4, h5, ?_⟩
  · intro w hw
    rcases List.mem_map.mp hw with ⟨w0, hw0, rfl⟩
    rw [hid]
    exact h1 w0 hw0
  · intro w hw
    rcases List.mem_map.mp hw with ⟨w0, hw0, rfl⟩
    rw [hid, hlk, hdk]
    exact h6 w0 hw0

/-- Removing rows from the videos table preserves the invariant. -/
theorem inv_videos_filter {db : Db} (p : Video → Bool) (h : Inv db) :
    Inv { db with videos := db.videos.filter p } := by
  obtain ⟨h1, h2, h3, h4, h5, h6⟩ := h
  exact ⟨fun w hw => h1 w (List.mem_of_mem_filter hw), h2, h3, h4, h5,
    fun w hw => h6 w (List.mem_of_mem_filter hw)⟩

theorem inv_updateVideo (id : Nat) (upd : UpdateVideo) {db : Db} (h : Inv db) :
    Inv (updateVideo id upd db).2 := by
  have hdb : (updateVideo id upd db).2
      = { db with videos :=
            db.videos.map (fun w => if w.id == id then applyVideoUpdate upd w else w) } := rfl
  rw [hdb]
  refine inv_videos_map _ ?_ ?_ ?_ h <;> intro w <;>
    by_cases hb : (w.id == id) = true <;> simp [hb, applyVideoUpdate]

theorem inv_incrementViews (id : Nat) {db : Db} (h : Inv db) :
    Inv (incrementViews id db).2 := by
  have hdb : (incrementViews id db).2
      = { db with videos :=
            db.videos.map (fun w => if w.id == id then { w with views := w.views + 1 } else w) } := rfl
  rw [hdb]
  refine inv_videos_map _ ?_ ?_ ?_ h <;> intro w <;>
    by_cases hb : (w.id == id) = true <;> simp [hb]

theorem inv_deleteVideo (id : Nat) {db : Db} (h : Inv db) :
    Inv (deleteVideo id db).2 := by
  have hdb : (deleteVideo id db).2
      = { db with videos := db.videos.filter (fun w => !(w.id == id)) } := rfl
  rw [hdb]
  exact inv_videos_filter _ h

theorem inv_createVideo (ins : InsertVideo) {db : Db} (h : Inv db) :
    Inv (createVideo ins db).2 := by
  obtain ⟨h1, h2, h3, h4, h5, h6⟩ := h
  refine ⟨?_, ?_, ?_, h4, h5, ?_⟩
  · intro w hw
    simp only [createVideo] at hw
    rcases List.mem_append.mp hw with hw | hw
    · exact Nat.lt_succ_of_lt (h1 w hw)
    · have hww := List.mem_singleton.mp hw
      subst hww
      exact Nat.lt_succ_self _
  · intro r hr
    exact Nat.lt_succ_of_lt (h2 r hr)
  · intro r hr
    exact Nat.lt_succ_of_lt (h3 r hr)
  · intro w hw
    simp only [createVideo] at hw
    rcases List.mem_append.mp hw with hw | hw
    · exact h6 w hw
    · have hww := List.mem_singleton.mp hw
      subst hww
      constructor
      · show (0 : Int) = ((countRows db.likes db.nextVideoId : Nat) : Int)
        rw [countRows_zero_of_lt h2]
        rfl
      · show (0 : Int) = ((countRows db.dislikes db.nextVideoId : Nat) : Int)
        rw [countRows_zero_of_lt h3]
        rfl

end GorillaFlix

namespace GorillaFlix

theorem inv_likeVideo (u v : Nat) {db : Db}
    (hG : (getVideoRow v db).isSome = true) (h : Inv db) :
    Inv (likeVideo u v db).2 := by
  cases hE : findUV db.likes u v with
  | some r =>
    have hdb : (likeVideo u v db).2 = db := by
      simp [likeVideo, likeVideoRun, likeVideoProg, runUnits, hE, applyUnit]
    rw [hdb]; exact h
  | none =>
    have hdb : (likeVideo u v db).2 = bumpLikes v (insLike u v db) := by
      simp [likeVideo, likeVideoRun, likeVideoProg, runUnits, hE, applyUnit]
    rw [hdb]
    obtain ⟨h1, h2, h3, h4, h5, h6⟩ := h
    have hvlt : v < db.nextVideoId := by
      rcases Option.isSome_iff_exists.mp hG with ⟨vid, hvid⟩
      unfold getVideoRow at hvid
      have hmem := List.mem_of_find?_eq_some hvid
      have hpred := List.find?_some hvid
      have hidv : vid.id = v := by simpa using hpred
      rw [← hidv]
      exact h1 vid hmem
    refine ⟨?_, ?_, h3, ?_, h5, ?_⟩
    · intro w hw
      simp only [bumpLikes, insLike] at hw
      rcases List.mem_map.mp hw with ⟨w0, hw0, rfl⟩
      by_cases hb : (w0.id == v) = true
      · rw [if_pos hb]; exact h1 w0 hw0
      · rw [if_neg hb]; exact h1 w0 hw0
    · intro r' hr'
      simp only [bumpLikes, insLike] at hr'
      rcases List.mem_append.mp hr' with hr' | hr'
      · exact h2 r' hr'
      · have hrr := List.mem_singleton.mp hr'
        subst hrr
        exact hvlt
    · intro u' v'
      show List.countP (fun r => r.userId == u' && r.videoId == v')
        (db.likes ++ [⟨u, v⟩]) ≤ 1
      rw [List.countP_append]
      by_cases huv : u' = u ∧ v' = v
      · obtain ⟨rfl, rfl⟩ := huv
        have h0 := countUV_zero_of_find?_none hE
        unfold countUV at h0
        rw [h0]
        simp [List.countP_cons]
      · have hne : ¬(u = u' ∧ v = v') := fun hc => huv ⟨hc.1.symm, hc.2.symm⟩
        have hsingle : List.countP (fun r => r.userId == u' && r.videoId == v')
            [(⟨u, v⟩ : UVRow)] = 0 := by
          simp only [List.countP_cons, List.countP_nil]
          have : ((u == u') && (v == v')) = false := by
            rcases not_and_or.mp hne with hx | hx <;> simp [hx]
          simp [this]
        rw [hsingle]
        have hle := h4 u' v'
        unfold countUV at hle
        omega
    · intro w hw
      simp only [bumpLikes, insLike] at hw
      rcases List.mem_map.mp hw with ⟨w0, hw0, rfl⟩
      have hL := h6 w0 hw0
      by_cases hb : (w0.id == v) = true
      · have hbv : w0.id = v := by simpa using hb
        rw [if_pos hb]
        constructor
        · show w0.likes + 1
            = ((countRows (db.likes ++ [⟨u, v⟩]) w0.id : Nat) : Int)
          rw [countRows_append]
          have hone : countRows [(⟨u, v⟩ : UVRow)] w0.id = 1 := by
            simp [countRows, List.countP_cons, hbv]
          rw [hone, hL.1]
          push_cast
          ring
        · show w0.dislikes = ((countRows db.dislikes w0.id : Nat) : Int)
          exact hL.2
      · have hbv : w0.id ≠ v := by simpa using hb
        rw [if_neg hb]
        constructor
        · show w0.likes = ((countRows (db.likes ++ [⟨u, v⟩]) w0.id : Nat) : Int)
          rw [countRows_append]
          have hzero : countRows [(⟨u, v⟩ : UVRow)] w0.id = 0 := by
            simp [countRows, List.countP_cons]
            exact fun hc => absurd hc.symm hbv
          rw [hzero, Nat.add_zero]
          exact hL.1
        · show w0.dislikes = ((countRows db.dislikes w0.id : Nat) : Int)
          exact hL.2

theorem inv_unlikeVideo (u v : Nat) {db : Db} (h : Inv db) :
    Inv (unlikeVideo u v db).2 := by
  cases hE : findUV db.likes u v with
  | none =>
    have hs : (findUV db.likes u v).isSome = false := by rw [hE]; rfl
    have hdb : (unlikeVideo u v db).2 = delLike u v db := by
      simp [unlikeVideo, unlikeVideoRun, unlikeVideoProg, runUnits, hs, applyUnit]
    have hdb2 : delLike u v db = db := by
      unfold delLike
      rw [eraseUV_of_find?_none _ _ _ hE]
    rw [hdb, hdb2]; exact h
  | some r =>
    have hs : (findUV db.likes u v).isSome = true := by rw [hE]; rfl
    have hdb : (unlikeVideo u v db).2 = dropLikes v (delLike u v db) := by
      simp [unlikeVideo, unlikeVideoRun, unlikeVideoProg, runUnits, hs, applyUnit]
    rw [hdb]
    obtain ⟨h1, h2, h3, h4, h5, h6⟩ := h
    have hcnt1 : countUV db.likes u v = 1 :=
      Nat.le_antisymm (h4 u v) (countUV_pos_of_find?_some hE)
    refine ⟨?_, ?_, h3, ?_, h5, ?_⟩
    · intro w hw
      simp only [dropLikes, delLike] at hw
      rcases List.mem_map.mp hw with ⟨w0, hw0, rfl⟩
      by_cases hb : (w0.id == v) = true
      · rw [if_pos hb]; exact h1 w0 hw0
      · rw [if_neg hb]; exact h1 w0 hw0
    · intro r' hr'
      simp only [dropLikes, delLike] at hr'
      exact h2 r' (List.mem_of_mem_filter hr')
    · intro u' v'
      show countUV (eraseUV db.likes u v) u' v' ≤ 1
      exact le_trans (countUV_eraseUV_le db.likes u v u' v') (h4 u' v')
    · intro w hw
      simp only [dropLikes, delLike] at hw
      rcases List.mem_map.mp hw with ⟨w0, hw0, rfl⟩
      have hL := h6 w0 hw0
      by_cases hb : (w0.id == v) = true
      · have hbv : w0.id = v := by simpa using hb
        rw [if_pos hb]
        constructor
        · show w0.likes - 1
            = ((countRows (eraseUV db.likes u v) w0.id : Nat) : Int)
          rw [hbv]
          have hkey := countRows_eraseUV_self db.likes u v
          rw [hcnt1] at hkey
          have hc : w0.likes = ((countRows db.likes v : Nat) : Int) := by
            rw [← hbv]; exact hL.1
          omega
        · show w0.dislikes = ((countRows db.dislikes w0.id : Nat) : Int)
          exact hL.2
      · have hbv : w0.id ≠ v := by simpa using hb
        rw [if_neg hb]
        constructor
        · show w0.likes = ((countRows (eraseUV db.likes u v) w0.id : Nat) : Int)
          rw [countRows_eraseUV_other db.likes u v w0.id hbv]
          exact hL.1
        · show w0.dislikes = ((countRows db.dislikes w0.id : Nat) : Int)
          exact hL.2

end GorillaFlix

namespace GorillaFlix

theorem inv_dislikeVideo (u v : Nat) {db : Db}
    (hG : (getVideoRow v db).isSome = true) (h : Inv db) :
    Inv (dislikeVideo u v db).2 := by
  cases hE : findUV db.dislikes u v with
  | some r =>
    have hdb : (dislikeVideo u v db).2 = db := by
      simp [dislikeVideo, dislikeVideoRun, dislikeVideoProg, runUnits, hE, applyUnit]
    rw [hdb]; exact h
  | none =>
    have hdb : (dislikeVideo u v db).2 = bumpDislikes v (insDislike u v db) := by
      simp [dislikeVideo, dislikeVideoRun, dislikeVideoProg, runUnits, hE, applyUnit]
    rw [hdb]
    obtain ⟨h1, h2, h3, h4, h5, h6⟩ := h
    have hvlt : v < db.nextVideoId := by
      rcases Option.isSome_iff_exists.mp hG with ⟨vid, hvid⟩
      unfold getVideoRow at hvid
      have hmem := List.mem_of_find?_eq_some hvid
      have hpred := List.find?_some hvid
      have hidv : vid.id = v := by simpa using hpred
      rw [← hidv]
      exact h1 vid hmem
    refine ⟨?_, h2, ?_, h4, ?_, ?_⟩
    · intro w hw
      simp only [bumpDislikes, insDislike] at hw
      rcases List.mem_map.mp hw with ⟨w0, hw0, rfl⟩
      by_cases hb : (w0.id == v) = true
      · rw [if_pos hb]; exact h1 w0 hw0
      · rw [if_neg hb]; exact h1 w0 hw0
    · intro r' hr'
      simp only [bumpDislikes, insDislike] at hr'
      rcases List.mem_append.mp hr' with hr' | hr'
      · exact h3 r' hr'
      · have hrr := List.mem_singleton.mp hr'
        subst hrr
        exact hvlt
    · intro u' v'
      show List.countP (fun r => r.userId == u' && r.videoId == v')
        (db.dislikes ++ [⟨u, v⟩]) ≤ 1
      rw [List.countP_append]
      by_cases huv : u' = u ∧ v' = v
      · obtain ⟨rfl, rfl⟩ := huv
        have h0 := countUV_zero_of_find?_none hE
        unfold countUV at h0
        rw [h0]
        simp [List.countP_cons]
      · have hne : ¬(u = u' ∧ v = v') := fun hc => huv ⟨hc.1.symm, hc.2.symm⟩
        have hsingle : List.countP (fun r => r.userId == u' && r.videoId == v')
            [(⟨u, v⟩ : UVRow)] = 0 := by
          simp only [List.countP_cons, List.countP_nil]
          have : ((u == u') && (v == v')) = false := by
            rcases not_and_or.mp hne with hx | hx <;> simp [hx]
          simp [this]
        rw [hsingle]
        have hle := h5 u' v'
        unfold countUV at hle
        omega
    · intro w hw
      simp only [bumpDislikes, insDislike] at hw
      rcases List.mem_map.mp hw with ⟨w0, hw0, rfl⟩
      have hL := h6 w0 hw0
      by_cases hb : (w0.id == v) = true
      · have hbv : w0.id = v := by simpa using hb
        rw [if_pos hb]
        constructor
        · show w0.likes = ((countRows db.likes w0.id : Nat) : Int)
          exact hL.1
        · show w0.dislikes + 1
            = ((countRows (db.dislikes ++ [⟨u, v⟩]) w0.id : Nat) : Int)
          rw [countRows_append]
          have hone : countRows [(⟨u, v⟩ : UVRow)] w0.id = 1 := by
            simp [countRows, List.countP_cons, hbv]
          rw [hone, hL.2]
          push_cast
          ring
      · have hbv : w0.id ≠ v := by simpa using hb
        rw [if_neg hb]
        constructor
        · show w0.likes = ((countRows db.likes w0.id : Nat) : Int)
          exact hL.1
        · show w0.dislikes = ((countRows (db.dislikes ++ [⟨u, v⟩]) w0.id : Nat) : Int)
          rw [countRows_append]
          have hzero : countRows [(⟨u, v⟩ : UVRow)] w0.id = 0 := by
            simp [countRows, List.countP_cons]
            exact fun hc => absurd hc.symm hbv
          rw [hzero, Nat.add_zero]
          exact hL.2

theorem inv_undislikeVideo (u v : Nat) {db : Db} (h : Inv db) :
    Inv (undislikeVideo u v db).2 := by
  cases hE : findUV db.dislikes u v with
  | none =>
    have hs : (findUV db.dislikes u v).isSome = false := by rw [hE]; rfl
    have hdb : (undislikeVideo u v db).2 = delDislike u v db := by
      simp [undislikeVideo, undislikeVideoRun, undislikeVideoProg, runUnits, hs, applyUnit]
    have hdb2 : delDislike u v db = db := by
      unfold delDislike
      rw [eraseUV_of_find?_none _ _ _ hE]
    rw [hdb, hdb2]; exact h
  | some r =>
    have hs : (findUV db.dislikes u v).isSome = true := by rw [hE]; rfl
    have hdb : (undislikeVideo u v db).2 = dropDislikes v (delDislike u v db) := by
      simp [undislikeVideo, undislikeVideoRun, undislikeVideoProg, runUnits, hs, applyUnit]
    rw [hdb]
    obtain ⟨h1, h2, h3, h4, h5, h6⟩ := h
    have hcnt1 : countUV db.dislikes u v = 1 :=
      Nat.le_antisymm (h5 u v) (countUV_pos_of_find?_some hE)
    refine ⟨?_, h2, ?_, h4, ?_, ?_⟩
    · intro w hw
      simp only [dropDislikes, delDislike] at hw
      rcases List.mem_map.mp hw with ⟨w0, hw0, rfl⟩
      by_cases hb : (w0.id == v) = true
      · rw [if_pos hb]; exact h1 w0 hw0
      · rw [if_neg hb]; exact h1 w0 hw0
    · intro r' hr'
      simp only [dropDislikes, delDislike] at hr'
      exact h3 r' (List.mem_of_mem_filter hr')
    · intro u' v'
      show countUV (eraseUV db.dislikes u v) u' v' ≤ 1
      exact le_trans (countUV_eraseUV_le db.dislikes u v u' v') (h5 u' v')
    · intro w hw
      simp only [dropDislikes, delDislike] at hw
      rcases List.mem_map.mp hw with ⟨w0, hw0, rfl⟩
      have hL := h6 w0 hw0
      by_cases hb : (w0.id == v) = true
      · have hbv : w0.id = v := by simpa using hb
        rw [if_pos hb]
        constructor
        · show w0.likes = ((countRows db.likes w0.id : Nat) : Int)
          exact hL.1
        · show w0.dislikes - 1
            = ((countRows (eraseUV db.dislikes u v) w0.id : Nat) : Int)
          rw [hbv]
          have hkey := countRows_eraseUV_self db.dislikes u v
          rw [hcnt1] at hkey
          have hc : w0.dislikes = ((countRows db.dislikes v : Nat) : Int) := by
            rw [← hbv]; exact hL.2
          omega
      · have hbv : w0.id ≠ v := by simpa using hb
        rw [if_neg hb]
        constructor
        · show w0.likes = ((countRows db.likes w0.id : Nat) : Int)
          exact hL.1
        · show w0.dislikes
            = ((countRows (eraseUV db.dislikes u v) w0.id : Nat) : Int)
          rw [countRows_eraseUV_other db.dislikes u v w0.id hbv]
          exact hL.2

end GorillaFlix

namespace GorillaFlix

/-- States reachable from the empty store by the raw storage operations,
with no restriction on their arguments (the claim's literal reading:
`likeVideo` etc. may target any video id). -/
inductive ReachS : Db → Prop
  | init : ReachS Db.empty
  | newUser {db} (ins : InsertUser) : ReachS db → ReachS (createUser ins db).2
  | editUser {db} (id : Nat) (upd : UpdateUser) : ReachS db → ReachS (updateUser id upd db).2
  | newVideo {db} (ins : InsertVideo) : ReachS db → ReachS (createVideo ins db).2
  | editVideo {db} (id : Nat) (upd : UpdateVideo) : ReachS db → ReachS (updateVideo id upd db).2
  | delVideo {db} (id : Nat) : ReachS db → ReachS (deleteVideo id db).2
  | views {db} (id : Nat) : ReachS db → ReachS (incrementViews id db).2
  | addWatch {db} (u v : Nat) : ReachS db → ReachS (addToWatchlist u v db).2
  | rmWatch {db} (u v : Nat) : ReachS db → ReachS (removeFromWatchlist u v db).2
  | like {db} (u v : Nat) : ReachS db → ReachS (likeVideo u v db).2
  | unlike {db} (u v : Nat) : ReachS db → ReachS (unlikeVideo u v db).2
  | dislike {db} (u v : Nat) : ReachS db → ReachS (dislikeVideo u v db).2
  | undislike {db} (u v : Nat) : ReachS db → ReachS (undislikeVideo u v db).2
  | newComment {db} (ins : InsertComment) : ReachS db → ReachS (createComment ins db).2
  | delComment {db} (id userId : Nat) : ReachS db → ReachS (deleteComment id userId db).2
  | editComment {db} (id userId : Nat) (c : String) : ReachS db → ReachS (updateComment id userId c db).2

/-- States reachable when the row-inserting interaction operations are
only applied to existing videos — exactly the check the API routes
perform (`POST /api/likes`, `/api/dislikes`, `/api/watchlist` and the
comment routes all look the video up and 404 before calling storage). -/
inductive Reach : Db → Prop
  | init : Reach Db.empty
  | newUser {db} (ins : InsertUser) : Reach db → Reach (createUser ins db).2
  | editUser {db} (id : Nat) (upd : UpdateUser) : Reach db → Reach (updateUser id upd db).2
  | newVideo {db} (ins : InsertVideo) : Reach db → Reach (createVideo ins db).2
  | editVideo {db} (id : Nat) (upd : UpdateVideo) : Reach db → Reach (updateVideo id upd db).2
  | delVideo {db} (id : Nat) : Reach db → Reach (deleteVideo id db).2
  | views {db} (id : Nat) : Reach db → Reach (incrementViews id db).2
  | addWatch {db} (u v : Nat) : (getVideoRow v db).isSome = true →
      Reach db → Reach (addToWatchlist u v db).2
  | rmWatch {db} (u v : Nat) : Reach db → Reach (removeFromWatchlist u v db).2
  | like {db} (u v : Nat) : (getVideoRow v db).isSome = true →
      Reach db → Reach (likeVideo u v db).2
  | unlike {db} (u v : Nat) : Reach db → Reach (unlikeVideo u v db).2
  | dislike {db} (u v : Nat) : (getVideoRow v db).isSome = true →
      Reach db → Reach (dislikeVideo u v db).2
  | undislike {db} (u v : Nat) : Reach db → Reach (undislikeVideo u v db).2
  | newComment {db} (ins : InsertComment) : (getVideoRow ins.videoId db).isSome = true →
      Reach db → Reach (createComment ins db).2
  | delComment {db} (id userId : Nat) : Reach db → Reach (deleteComment id userId db).2
  | editComment {db} (id userId : Nat) (c : String) : Reach db → Reach (updateComment id userId c db).2

/-- Every route-mediated reachable state satisfies the invariant. -/
theorem reach_inv {db : Db} (h : Reach db) : Inv db := by
  induction h with
  | init => exact inv_empty
  | newUser ins _ ih => exact inv_createUser ins ih
  | editUser id upd _ ih => exact inv_updateUser id upd ih
  | newVideo ins _ ih => exact inv_createVideo ins ih
  | editVideo id upd _ ih => exact inv_updateVideo id upd ih
  | delVideo id _ ih => exact inv_deleteVideo id ih
  | views id _ ih => exact inv_incrementViews id ih
  | addWatch u v _ _ ih => exact inv_addToWatchlist u v ih
  | rmWatch u v _ ih => exact inv_removeFromWatchlist u v ih
  | like u v hG _ ih => exact inv_likeVideo u v hG ih
  | unlike u v _ ih => exact inv_unlikeVideo u v ih
  | dislike u v hG _ ih => exact inv_dislikeVideo u v hG ih
  | undislike u v _ ih => exact inv_undislikeVideo u v ih
  | newComment ins _ _ ih => exact inv_createComment ins ih
  | delComment id userId _ ih => exact inv_deleteComment id userId ih
  | editComment id userId c _ ih => exact inv_updateComment id userId c ih

end GorillaFlix

namespace GorillaFlix

/-- An insert payload matching `vidW`'s metadata. -/
def insW : InsertVideo :=
  { title := "First", description := none, thumbnail := "/uploads/t.png"
    videoUrl := "/uploads/v.mp4", category := "Action", userId := 1
    featured := false }

/-- Storage-level drift: like video id 1 before it exists (the `likes`
table has no foreign key), then create a video — the serial sequence
assigns it id 1, with `likes = 0` but one matching row. -/
def dbDrift : Db := (createVideo insW (likeVideo 1 1 Db.empty).2).2

/-- C2 counterexample: a state reachable by the raw storage operations in
which a video's `likes` counter differs from its row count. -/
theorem counters_drift_counterexample :
    ReachS dbDrift ∧
    ∃ w ∈ dbDrift.videos,
      ¬ w.likes = ((countRows dbDrift.likes w.id : Nat) : Int) := by
  constructor
  · exact ReachS.newVideo insW (ReachS.like 1 1 ReachS.init)
  · decide

/-- C2 (amended): in every state reachable from the empty store when the
like/dislike/watchlist/comment row-inserting operations are applied only
to existing videos — the check every API route performs before calling
them — each video's `likes` and `dislikes` counters equal the number of
matching rows in the corresponding join table. -/
theorem counters_match_rows {db : Db} (h : Reach db) :
    ∀ w ∈ db.videos,
      w.likes = ((countRows db.likes w.id : Nat) : Int) ∧
      w.dislikes = ((countRows db.dislikes w.id : Nat) : Int) :=
  fun w hw => (reach_inv h).2.2.2.2.2 w hw

/-- Route-mediated state for the C2 witness: create a video, then like it. -/
def dbC2W : Db := (likeVideo 5 1 (createVideo insW Db.empty).2).2

def vidC2W : Video := { vidW with likes := 1 }

/-- Witness for C2 on a concrete reachable state. -/
theorem counters_match_rows_witness :
    vidC2W.likes = ((countRows dbC2W.likes vidC2W.id : Nat) : Int) ∧
    vidC2W.dislikes = ((countRows dbC2W.dislikes vidC2W.id : Nat) : Int) :=
  counters_match_rows
    (Reach.like 5 1 (by decide) (Reach.newVideo insW Reach.init))
    vidC2W (by decide)

end GorillaFlix

namespace GorillaFlix

/-! ## Claim C3 — watchlist maintenance -/

/-- C3 counterexample: on a store with video 1 and an empty watchlist,
`addToWatchlist` inserts the watchlist row but performs *no* update of
the parent video record (the `videos` schema has no watchlist counter
column), refuting the claim that it wraps the row insert together with an
aggregate counter update in one transaction. -/
theorem addToWatchlist_no_counter_counterexample :
    (addToWatchlist 2 1 dbW).2.watchlist = dbW.watchlist ++ [⟨2, 1⟩] ∧
    (addToWatchlist 2 1 dbW).2.videos = dbW.videos ∧
    (addToWatchlistProg 2 1 dbW).map List.length = [1] := by
  decide

/-- C3 (amended): `addToWatchlist` deduplicates on the (user, video) key
and then performs a single watchlist-row insert, leaving the videos,
likes and dislikes tables untouched; `removeFromWatchlist` performs a
single delete and reports whether a row was removed, also leaving the
video record untouched.  No transaction and no counter update on the
parent record exist in either operation. -/
theorem watchlist_ops_no_counter (u v : Nat) (db : Db) (r : UVRow) :
    (findUV db.watchlist u v = none →
       (addToWatchlist u v db).2.watchlist = db.watchlist ++ [⟨u, v⟩]) ∧
    (findUV db.watchlist u v = some r → addToWatchlist u v db = (r, db)) ∧
    (addToWatchlist u v db).2.videos = db.videos ∧
    (addToWatchlist u v db).2.likes = db.likes ∧
    (addToWatchlist u v db).2.dislikes = db.dislikes ∧
    (removeFromWatchlist u v db).2.watchlist = eraseUV db.watchlist u v ∧
    (removeFromWatchlist u v db).1 = (findUV db.watchlist u v).isSome ∧
    (removeFromWatchlist u v db).2.videos = db.videos := by
  refine ⟨?_, ?_, ?_, ?_, ?_, ?_, rfl, ?_⟩
  · intro h
    simp [addToWatchlist, addToWatchlistProg, runUnits, h, applyUnit, insWatch]
  · intro h
    simp [addToWatchlist, addToWatchlistRet, addToWatchlistProg, runUnits, h, applyUnit]
  · cases hE : findUV db.watchlist u v <;>
      simp [addToWatchlist, addToWatchlistProg, runUnits, hE, applyUnit, insWatch]
  · cases hE : findUV db.watchlist u v <;>
      simp [addToWatchlist, addToWatchlistProg, runUnits, hE, applyUnit, insWatch]
  · cases hE : findUV db.watchlist u v <;>
      simp [addToWatchlist, addToWatchlistProg, runUnits, hE, applyUnit, insWatch]
  · simp [removeFromWatchlist, runUnits, applyUnit, delWatch]
  · simp [removeFromWatchlist, runUnits, applyUnit, delWatch]

/-- Witness for C3's amended statement at a concrete store. -/
theorem watchlist_ops_no_counter_witness :
    (addToWatchlist 2 1 dbW).2.watchlist = dbW.watchlist ++ [⟨2, 1⟩] ∧
    (addToWatchlist 2 1 dbW).2.videos = dbW.videos :=
  ⟨(watchlist_ops_no_counter 2 1 dbW ⟨2, 1⟩).1 (by decide),
   (watchlist_ops_no_counter 2 1 dbW ⟨2, 1⟩).2.2.1⟩

/-! ## Claim C4 — dedupe on the (user, video) key and idempotence -/

theorem findUV_append_self (rows : List UVRow) (u v : Nat) :
    findUV (rows ++ [⟨u, v⟩]) u v ≠ none := by
  unfold findUV
  intro hnone
  have hmem : (⟨u, v⟩ : UVRow) ∈ rows ++ [⟨u, v⟩] := by simp
  have := List.find?_eq_none.mp hnone _ hmem
  simp at this

theorem likeVideo_state_of_some (u v : Nat) (db : Db)
    (h : findUV db.likes u v ≠ none) : (likeVideo u v db).2 = db := by
  cases hE : findUV db.likes u v with
  | none => exact absurd hE h
  | some r => simp [likeVideo, likeVideoRun, likeVideoProg, runUnits, hE, applyUnit]

theorem dislikeVideo_state_of_some (u v : Nat) (db : Db)
    (h : findUV db.dislikes u v ≠ none) : (dislikeVideo u v db).2 = db := by
  cases hE : findUV db.dislikes u v with
  | none => exact absurd hE h
  | some r => simp [dislikeVideo, dislikeVideoRun, dislikeVideoProg, runUnits, hE, applyUnit]

theorem addToWatchlist_state_of_some (u v : Nat) (db : Db)
    (h : findUV db.watchlist u v ≠ none) : (addToWatchlist u v db).2 = db := by
  cases hE : findUV db.watchlist u v with
  | none => exact absurd hE h
  | some r => simp [addToWatchlist, addToWatchlistProg, runUnits, hE, applyUnit]

/-- C4: `likeVideo`, `dislikeVideo` and `addToWatchlist` deduplicate on
the existing (user, video) key: when a row exists the operation returns
it and changes nothing, and running any of the three twice leaves the
same store as running it once. -/
theorem dedupe_idempotent (u v : Nat) (db : Db) (r : UVRow) :
    (findUV db.likes u v = some r → likeVideo u v db = (r, db)) ∧
    (findUV db.dislikes u v = some r → dislikeVideo u v db = (r, db)) ∧
    (findUV db.watchlist u v = some r → addToWatchlist u v db = (r, db)) ∧
    (likeVideo u v (likeVideo u v db).2).2 = (likeVideo u v db).2 ∧
    (dislikeVideo u v (dislikeVideo u v db).2).2 = (dislikeVideo u v db).2 ∧
    (addToWatchlist u v (addToWatchlist u v db).2).2 = (addToWatchlist u v db).2 := by
  refine ⟨?_, ?_, ?_, ?_, ?_, ?_⟩
  · intro h
    simp [likeVideo, likeVideoRet, likeVideoRun, likeVideoProg, runUnits, h, applyUnit]
  · intro h
    simp [dislikeVideo, dislikeVideoRet, dislikeVideoRun, dislikeVideoProg, runUnits, h,
      applyUnit]
  · intro h
    simp [addToWatchlist, addToWatchlistRet, addToWatchlistProg, runUnits, h, applyUnit]
  · cases hE : findUV db.likes u v with
    | some r' =>
      have h1 : (likeVideo u v db).2 = db :=
        likeVideo_state_of_some u v db (by simp [hE])
      rw [h1]
      exact h1
    | none =>
      have h1 : (likeVideo u v db).2 = bumpLikes v (insLike u v db) := by
        simp [likeVideo, likeVideoRun, likeVideoProg, runUnits, hE, applyUnit]
      have h2 : findUV (likeVideo u v db).2.likes u v ≠ none := by
        rw [h1]
        show findUV (db.likes ++ [⟨u, v⟩]) u v ≠ none
        exact findUV_append_self db.likes u v
      exact likeVideo_state_of_some u v _ h2
  · cases hE : findUV db.dislikes u v with
    | some r' =>
      have h1 : (dislikeVideo u v db).2 = db :=
        dislikeVideo_state_of_some u v db (by simp [hE])
      rw [h1]
      exact h1
    | none =>
      have h1 : (dislikeVideo u v db).2 = bumpDislikes v (insDislike u v db) := by
        simp [dislikeVideo, dislikeVideoRun, dislikeVideoProg, runUnits, hE, applyUnit]
      have h2 : findUV (dislikeVideo u v db).2.dislikes u v ≠ none := by
        rw [h1]
        show findUV (db.dislikes ++ [⟨u, v⟩]) u v ≠ none
        exact findUV_append_self db.dislikes u v
      exact dislikeVideo_state_of_some u v _ h2
  · cases hE : findUV db.watchlist u v with
    | some r' =>
      have h1 : (addToWatchlist u v db).2 = db :=
        addToWatchlist_state_of_some u v db (by simp [hE])
      rw [h1]
      exact h1
    | none =>
      have h1 : (addToWatchlist u v db).2 = insWatch u v db := by
        simp [addToWatchlist, addToWatchlistProg, runUnits, hE, applyUnit]
      have h2 : findUV (addToWatchlist u v db).2.watchlist u v ≠ none := by
        rw [h1]
        show findUV (db.watchlist ++ [⟨u, v⟩]) u v ≠ none
        exact findUV_append_self db.watchlist u v
      exact addToWatchlist_state_of_some u v _ h2

/-- A store with an existing like row, for the C4 witness. -/
def dbL : Db := { dbW with likes := [⟨2, 1⟩] }

/-- Witness for C4: dedupe hit on an existing row, and idempotence of a
fresh like. -/
theorem dedupe_idempotent_witness :
    likeVideo 2 1 dbL = (⟨2, 1⟩, dbL) ∧
    (likeVideo 2 1 (likeVideo 2 1 dbW).2).2 = (likeVideo 2 1 dbW).2 :=
  ⟨(dedupe_idempotent 2 1 dbL ⟨2, 1⟩).1 (by decide),
   (dedupe_idempotent 2 1 dbW ⟨2, 1⟩).2.2.2.1⟩

end GorillaFlix

namespace GorillaFlix

/-! ## Running handlers -/

@[simp] theorem bind_run {α β : Type} (x : M α) (f : α → M β) (s : HState) :
    (x >>= f) s = match x s with
      | (Except.ok a, s') => f a s'
      | (Except.error e, s') => (Except.error e, s') := rfl

@[simp] theorem pure_run {α : Type} (a : α) (s : HState) :
    (pure a : M α) s = (Except.ok a, s) := rfl

@[simp] theorem callR_nil {α : Type} (f : Db → α) (db : Db) :
    callR f ⟨db, []⟩ = (Except.ok (f db), ⟨db, []⟩) := rfl

@[simp] theorem callS_nil {α : Type} (f : Db → α × Db) (db : Db) :
    callS f ⟨db, []⟩ = (Except.ok (f db).1, ⟨(f db).2, []⟩) := by
  rcases hf : f db with ⟨a, db'⟩
  simp [callS, hf]

theorem getVideoRow_deleteVideo_self (id : Nat) (db : Db) :
    getVideoRow id (deleteVideo id db).2 = none := by
  unfold getVideoRow deleteVideo
  rw [List.find?_eq_none]
  intro w hw
  have h := (List.mem_filter.mp hw).2
  simp only [Bool.not_eq_true'] at h
  simp [h]

/-! ## Claim C5 — the administrative account can delete any video -/

/-- C5: with the admin account (user id 1) authenticated,
`DELETE /api/videos/:id` deletes any existing video — whatever its
`userId` — and responds with success, `DELETE /api/moderation/videos/:id`
does the same with a success message, and for a non-existent id both
respond 404 and leave the store unchanged. -/
theorem admin_moderation_delete
    (admin : User) (hadmin : admin.id = 1) (id : Nat) (db : Db) :
    (∀ vid, getVideoRow id db = some vid →
       runRoute (.deleteVideoById (some admin) id) db []
         = (⟨200, .success⟩, (deleteVideo id db).2) ∧
       runRoute (.moderationDelete (some admin) id none) db []
         = (⟨200, .successTerm ("Video " ++ toString id
             ++ " terminated by admin for: " ++ "Violation of community guidelines")⟩,
            (deleteVideo id db).2) ∧
       getVideoRow id (deleteVideo id db).2 = none) ∧
    (getVideoRow id db = none →
       runRoute (.deleteVideoById (some admin) id) db []
         = (⟨404, .msg "Video not found"⟩, db) ∧
       runRoute (.moderationDelete (some admin) id none) db []
         = (⟨404, .msg "Video not found"⟩, db)) := by
  constructor
  · intro vid hv
    refine ⟨?_, ?_, getVideoRow_deleteVideo_self id db⟩
    · simp [runRoute, handleRoute, catch500, routeBody, withAuth, hv, hadmin]
    · simp [runRoute, handleRoute, catch500, routeBody, withAuth, hv, hadmin]
  · intro hnone
    constructor
    · simp [runRoute, handleRoute, catch500, routeBody, withAuth, hnone, hadmin]
    · simp [runRoute, handleRoute, catch500, routeBody, withAuth, hnone, hadmin]

/-- Witness for C5: the admin deletes video 1, which user 1 did not
upload… in `dbW` the video belongs to user 1, so use a video owned by
someone else. -/
def vidOther : Video := { vidW with userId := 9 }

def dbOther : Db := { dbW with videos := [vidOther] }

def adminW : User :=
  { id := 1, username := "Gorilla Tag Dev", password := "pw", avatar := none, bio := none }

theorem admin_moderation_delete_witness :
    runRoute (.deleteVideoById (some adminW) 1) dbOther []
      = (⟨200, .success⟩, (deleteVideo 1 dbOther).2) ∧
    runRoute (.deleteVideoById (some adminW) 5) dbOther []
      = (⟨404, .msg "Video not found"⟩, dbOther) :=
  ⟨((admin_moderation_delete adminW rfl 1 dbOther).1 vidOther (by decide)).1,
   ((admin_moderation_delete adminW rfl 5 dbOther).2 (by decide)).1⟩

/-! ## Claim C8 — admin privilege is exactly "user id = 1" -/

/-- C8: for any authenticated user whose id is not 1,
`DELETE /api/videos/:id` refuses (403, nothing deleted) whenever the
target video belongs to someone else, and
`DELETE /api/moderation/videos/:id` refuses unconditionally (the admin
check precedes even the video lookup).  The `users` schema carries no
role or admin flag; id 1 is the only privilege test the routes make. -/
theorem nonadmin_cannot_moderate
    (u : User) (hne : u.id ≠ 1) (id : Nat) (db : Db) :
    (∀ vid, getVideoRow id db = some vid → vid.userId ≠ u.id →
       runRoute (.deleteVideoById (some u) id) db []
         = (⟨403, .msg "You can only delete your own videos"⟩, db)) ∧
    runRoute (.moderationDelete (some u) id none) db []
      = (⟨403, .msg "Only administrators can terminate videos"⟩, db) := by
  constructor
  · intro vid hv hvne
    simp [runRoute, handleRoute, catch500, routeBody, withAuth, hv, hne, hvne]
  · simp [runRoute, handleRoute, catch500, routeBody, withAuth, hne]

def userTwo : User :=
  { id := 2, username := "u2", password := "pw", avatar := none, bio := none }

theorem nonadmin_cannot_moderate_witness :
    runRoute (.deleteVideoById (some userTwo) 1) dbOther []
      = (⟨403, .msg "You can only delete your own videos"⟩, dbOther) ∧
    runRoute (.moderationDelete (some userTwo) 1 none) dbOther []
      = (⟨403, .msg "Only administrators can terminate videos"⟩, dbOther) :=
  ⟨(nonadmin_cannot_moderate userTwo (by decide) 1 dbOther).1 vidOther
      (by decide) (by decide),
   (nonadmin_cannot_moderate userTwo (by decide) 1 dbOther).2⟩

end GorillaFlix

namespace GorillaFlix

/-! ## Claim C9 — fetching a video increments its views -/

theorem find?_adjust_ne (l : List Video) (x id : Nat) (hne : x ≠ id)
    (g : Video → Video) (hg : ∀ w, (g w).id = w.id) :
    (l.map (fun w => if w.id == id then g w else w)).find? (fun w => w.id == x)
      = l.find? (fun w => w.id == x) := by
  induction l with
  | nil => rfl
  | cons a l ih =>
    by_cases h : a.id = x
    · have hax : (a.id == x) = true := by simp [h]
      have haid : (a.id == id) = false := by simp [h, hne]
      simp only [List.map_cons, haid, Bool.false_eq_true, if_false]
      rw [List.find?_cons_of_pos (p := fun (w : Video) => w.id == x) _ hax,
        List.find?_cons_of_pos (p := fun (w : Video) => w.id == x) _ hax]
    · have hax : (a.id == x) = false := by simp [h]
      have hfx : ((if (a.id == id) = true then g a else a).id == x) = false := by
        by_cases hb : (a.id == id) = true <;> simp [hb, hg, h]
      simp only [List.map_cons]
      rw [List.find?_cons_of_neg (p := fun (w : Video) => w.id == x) _ (by simpa using hfx),
        List.find?_cons_of_neg (p := fun (w : Video) => w.id == x) _ (by simp [hax])]
      exact ih

theorem getVideoRow_incrementViews (id : Nat) (db : Db) :
    getVideoRow id (incrementViews id db).2
      = (getVideoRow id db).map (fun w => { w with views := w.views + 1 }) :=
  find?_adjust db.videos id (fun w => { w with views := w.views + 1 }) (fun _ => rfl)

/-- C9: a successful `GET /api/videos/:id` returns the video as read
*before* the increment, increments exactly that video's `views` by one
(its other fields and every other table are untouched, and every other
video is unchanged), so the stored `views` is the returned value plus
one. -/
theorem get_video_increments_views (id : Nat) (db : Db) (vid : Video)
    (hv : getVideoRow id db = some vid) :
    runRoute (.getVideoById id) db []
      = (⟨200, .video vid⟩, (incrementViews id db).2) ∧
    getVideoRow id (incrementViews id db).2
      = some { vid with views := vid.views + 1 } ∧
    (incrementViews id db).2.videos
      = db.videos.map (fun w => if w.id == id then { w with views := w.views + 1 } else w) ∧
    (incrementViews id db).2.users = db.users ∧
    (incrementViews id db).2.watchlist = db.watchlist ∧
    (incrementViews id db).2.likes = db.likes ∧
    (incrementViews id db).2.dislikes = db.dislikes ∧
    (incrementViews id db).2.comments = db.comments ∧
    (∀ x, x ≠ id → getVideoRow x (incrementViews id db).2 = getVideoRow x db) := by
  refine ⟨?_, ?_, rfl, rfl, rfl, rfl, rfl, rfl, ?_⟩
  · simp [runRoute, handleRoute, catch500, routeBody, hv]
  · rw [getVideoRow_incrementViews, hv]
    rfl
  · intro x hx
    exact find?_adjust_ne db.videos x id hx _ (fun _ => rfl)

theorem get_video_increments_views_witness :
    runRoute (.getVideoById 1) dbW []
      = (⟨200, .video vidW⟩, (incrementViews 1 dbW).2) ∧
    getVideoRow 1 (incrementViews 1 dbW).2
      = some { vidW with views := vidW.views + 1 } :=
  ⟨(get_video_increments_views 1 dbW vidW (by decide)).1,
   (get_video_increments_views 1 dbW vidW (by decide)).2.1⟩

/-! ## Claim C10 — `PUT /api/videos/:id` ignores the session user -/

/-- C10: the PUT handler performs no authentication or ownership check:
its result is identical for any two session users (including none), and
for an existing video with a well-formed body any caller gets 200 and the
updated record is stored. -/
theorem put_video_user_independent (id : Nat) (b : VideoUpdateBody)
    (u1 u2 : Option User) (db : Db) (sched : List Bool) :
    runRoute (.putVideo u1 id b) db sched = runRoute (.putVideo u2 id b) db sched ∧
    (∀ vid upd, getVideoRow id db = some vid → parseVideoUpdate b = some upd →
       runRoute (.putVideo u1 id b) db []
         = (⟨200, .video (applyVideoUpdate upd vid)⟩, (updateVideo id upd db).2)) := by
  constructor
  · rfl
  · intro vid upd hv hp
    have hv' : db.videos.find? (fun w => w.id == id) = some vid := hv
    simp [runRoute, handleRoute, catch500, routeBody, hv, hp, updateVideo, hv']

def bUpd : VideoUpdateBody :=
  { title := some "New title", description := none, thumbnail := some "/uploads/t2.png"
    category := some "Comedy", featuredStr := some "true" }

def updW : UpdateVideo :=
  { title := "New title", description := none, thumbnail := "/uploads/t2.png"
    category := "Comedy", featured := true }

theorem put_video_user_independent_witness :
    runRoute (.putVideo none 1 bUpd) dbW []
      = runRoute (.putVideo (some userTwo) 1 bUpd) dbW [] ∧
    runRoute (.putVideo none 1 bUpd) dbW []
      = (⟨200, .video (applyVideoUpdate updW vidW)⟩, (updateVideo 1 updW dbW).2) :=
  ⟨(put_video_user_independent 1 bUpd none (some userTwo) dbW []).1,
   (put_video_user_independent 1 bUpd none (some userTwo) dbW []).2 vidW updW
     (by decide) (by decide)⟩

/-! ## Claim C6 — every route handler turns a storage throw into a 500 -/

/-- C6: each registered handler is its body wrapped in
try/catch-and-500: whenever the body's execution hits a storage throw the
handler responds 500 with that route's JSON error message and the store
as the failed body left it, and no handler ever lets an exception
propagate (its result is always a response). -/
theorem routes_catch_storage_errors (r : Route) (s : HState) :
    (∀ e s', routeBody r s = (Except.error e, s') →
       handleRoute r s = (Except.ok ⟨500, .msg (msg500 r)⟩, s')) ∧
    ∃ resp s', handleRoute r s = (Except.ok resp, s') := by
  constructor
  · intro e s' h
    unfold handleRoute catch500
    rw [h]
  · unfold handleRoute catch500
    rcases hb : routeBody r s with ⟨res, s'⟩
    cases res with
    | ok a => exact ⟨a, s', rfl⟩
    | error e => exact ⟨⟨500, .msg (msg500 r)⟩, s', rfl⟩

/-- Witness for C6: `GET /api/videos` with its single storage call made
to throw responds 500 with the route's message. -/
theorem routes_catch_storage_errors_witness :
    handleRoute Route.getVideos ⟨dbW, [true]⟩
      = (Except.ok ⟨500, .msg "Failed to fetch videos"⟩, ⟨dbW, []⟩) :=
  (routes_catch_storage_errors Route.getVideos ⟨dbW, [true]⟩).1 () ⟨dbW, []⟩ rfl

end GorillaFlix

namespace GorillaFlix

/-! ## Claim C7 — catalog search -/

/-- Metacharacter-freedom for a character list. -/
def metaFreeL (l : List Char) : Prop :=
  ∀ c ∈ l, c ≠ '%' ∧ c ≠ '_' ∧ c ≠ '\\'

theorem likeMatch_percent (p t : List Char) :
    likeMatch ('%' :: p) t = t.tails.any (fun s => likeMatch p s) := rfl

theorem likeMatch_lit_nil {c : Char} (p : List Char) (hc : c ≠ '%') :
    likeMatch (c :: p) [] = false := by
  show (if c = '%' then (([] : List Char).tails.any fun s => likeMatchF (p.length + 1) p s)
      else if c = '_' then false
      else if c = '\\' then
        (match p with
         | [] => false
         | _ :: _ => false)
      else false) = false
  rw [if_neg hc]
  by_cases hu : c = '_'
  · rw [if_pos hu]
  · rw [if_neg hu]
    by_cases hb : c = '\\'
    · rw [if_pos hb]
      cases p <;> rfl
    · rw [if_neg hb]

theorem likeMatch_lit_cons {c : Char} (p : List Char) (d : Char) (t : List Char)
    (hc : c ≠ '%') (hc2 : c ≠ '_') (hc3 : c ≠ '\\') :
    likeMatch (c :: p) (d :: t)
      = ((lowerChar d == lowerChar c) && likeMatch p t) := by
  show (if c = '%' then ((d :: t).tails.any fun s => likeMatchF (p.length + 1) p s)
      else if c = '_' then likeMatchF (p.length + 1) p t
      else if c = '\\' then
        (match p with
         | [] => false
         | e :: p' => (lowerChar d == lowerChar e) && likeMatchF (p.length + 1) p' t)
      else (lowerChar d == lowerChar c) && likeMatchF (p.length + 1) p t)
    = ((lowerChar d == lowerChar c) && likeMatchF (p.length + 1) p t)
  rw [if_neg hc, if_neg hc2, if_neg hc3]

/-- A metacharacter-free pattern followed by `%` matches a text exactly
when the case-folded pattern is a prefix of the case-folded text. -/
theorem likeMatch_lit_percent (q : List Char) :
    metaFreeL q → ∀ t,
      (likeMatch (q ++ ['%']) t = true
        ↔ (q.map lowerChar) <+: (t.map lowerChar)) := by
  induction q with
  | nil =>
    intro _ t
    simp only [List.nil_append, List.map_nil]
    constructor
    · intro _
      exact List.nil_prefix
    · intro _
      rw [likeMatch_percent, List.any_eq_true]
      exact ⟨[], (List.mem_tails _ _).mpr List.nil_suffix, rfl⟩
  | cons c q' ih =>
    intro hq t
    have hc := hq c (List.mem_cons_self c q')
    have hq' : metaFreeL q' := fun x hx => hq x (List.mem_cons_of_mem c hx)
    cases t with
    | nil =>
      rw [List.cons_append, likeMatch_lit_nil _ hc.1]
      simp only [List.map_cons, List.map_nil]
      constructor
      · intro h
        exact absurd h (by simp)
      · intro h
        have := List.prefix_nil.mp h
        simp at this
    | cons d t' =>
      rw [List.cons_append, likeMatch_lit_cons _ _ _ hc.1 hc.2.1 hc.2.2]
      simp only [List.map_cons, List.cons_prefix_cons]
      rw [Bool.and_eq_true, beq_iff_eq]
      constructor
      · rintro ⟨h1, h2⟩
        exact ⟨h1.symm, (ih hq' t').mp h2⟩
      · rintro ⟨h1, h2⟩
        exact ⟨h1.symm, (ih hq' t').mpr h2⟩

/-- For metacharacter-free queries, `ILIKE '%q%'` is exactly
case-insensitive substring containment. -/
theorem ilikeContains_eq_containsCI {q : String} (hq : metaFree q) (s : String) :
    ilikeContains q s = containsCI q s := by
  rw [Bool.eq_iff_iff]
  unfold ilikeContains containsCI
  rw [likeMatch_percent, List.any_eq_true, List.any_eq_true]
  constructor
  · rintro ⟨x, hxmem, hx⟩
    have hxsuf : x <:+ s.toList := (List.mem_tails _ _).mp hxmem
    have hpre : (q.toList.map lowerChar) <+: (x.map lowerChar) :=
      (likeMatch_lit_percent q.toList hq x).mp hx
    exact ⟨x.map lowerChar,
      (List.mem_tails _ _).mpr (List.IsSuffix.map lowerChar hxsuf),
      List.isPrefixOf_iff_prefix.mpr hpre⟩
  · rintro ⟨t', ht'mem, ht'⟩
    have ht'suf : t' <:+ (s.toList.map lowerChar) := (List.mem_tails _ _).mp ht'mem
    have hpre : (q.toList.map lowerChar) <+: t' := List.isPrefixOf_iff_prefix.mp ht'
    obtain ⟨pre, hpre2⟩ := ht'suf
    obtain ⟨l1, l2, hsplit, hmap1, hmap2⟩ := List.map_eq_append_iff.mp hpre2.symm
    refine ⟨l2, (List.mem_tails _ _).mpr ⟨l1, hsplit.symm⟩, ?_⟩
    exact (likeMatch_lit_percent q.toList hq l2).mpr (hmap2.symm ▸ hpre)

/-- C7 counterexample: searching for `%` returns the video titled
"First" although `%` occurs in neither its title nor its (null)
description — the query's `%` acts as an `ILIKE` wildcard, not as a
literal substring. -/
theorem search_wildcard_counterexample :
    runRoute (.search (some "%")) dbW [] = (⟨200, .videos [vidW]⟩, dbW) ∧
    containsCI "%" vidW.title = false ∧
    vidW.description = none := by
  refine ⟨?_, by decide, rfl⟩
  decide

/-- C7 (amended): `GET /api/videos/search` responds 400 for a missing or
empty `q`; otherwise it returns exactly the videos whose title or
description matches `%q%` under SQL `ILIKE` semantics (`%`, `_` and `\`
in the query keep their pattern meaning), which for metacharacter-free
queries coincides with case-insensitive substring containment. -/
theorem search_route_ilike (q : Option String) (db : Db) :
    (q = none ∨ q = some "" →
       runRoute (.search q) db [] = (⟨400, .msg "Search query is required"⟩, db)) ∧
    (∀ s, q = some s → s ≠ "" →
       runRoute (.search q) db [] = (⟨200, .videos (searchVideos s db)⟩, db)) ∧
    (∀ s, metaFree s → searchVideos s db = searchVideosSubstring s db) := by
  refine ⟨?_, ?_, ?_⟩
  · rintro (rfl | rfl) <;> simp [runRoute, handleRoute, catch500, routeBody]
  · rintro s rfl hs
    have hsb : (s == "") = false := by simp [hs]
    simp [runRoute, handleRoute, catch500, routeBody, hsb]
  · intro s hs
    unfold searchVideos searchVideosSubstring
    apply List.filter_congr
    intro v _
    have h1 := ilikeContains_eq_containsCI hs v.title
    cases hd : v.description with
    | none => simp [h1]
    | some d => simp [h1, ilikeContains_eq_containsCI hs d]

/-- Witness for C7's amended statement. -/
theorem search_route_ilike_witness :
    runRoute (.search (some "")) dbW []
      = (⟨400, .msg "Search query is required"⟩, dbW) ∧
    runRoute (.search (some "first")) dbW []
      = (⟨200, .videos (searchVideos "first" dbW)⟩, dbW) ∧
    searchVideos "first" dbW = searchVideosSubstring "first" dbW :=
  ⟨(search_route_ilike (some "") dbW).1 (Or.inr rfl),
   (search_route_ilike (some "first") dbW).2.1 "first" rfl (by decide),
   (search_route_ilike (some "first") dbW).2.2 "first" (by decide)⟩

end GorillaFlix
